import Mathlib

/-!
# DIALS: flattening of shoeboxes and the reciprocal-space transform interface

Shallow embedding of

* `algorithms/integration/flattened_2d_profile_fitting.h`
  (the constructor of `Flattened2DProfileFitting` and its two accessors),
* the parts of the Gaussian reciprocal-space transform that
  `algorithms/profile_model/gaussian_rs/transform/boost_python/transform_ext.cc`
  binds (`TransformSpec`, `MapFramesForward`, `Forward`).

Floating point values (`double`) are embedded as rationals, so every statement
is one of exact arithmetic. `std::size_t` is embedded as `Nat`, `int` as `Int`.
-/

namespace dials

/-! ## Arrays -/

/-- In-place modification of element `k` of a flat store: `l[k] = f(l[k])`. -/
def modifyAt {α : Type} (d : α) (l : List α) (k : Nat) (f : α → α) : List α :=
  l.set k (f (l.getD k d))

/-- Two-dimensional array `af::versa<T, af::c_grid<2> >`: the extents of the
accessor and the row-major element store. -/
structure Versa2 (α : Type) where
  n0 : Nat
  n1 : Nat
  elems : List α
deriving DecidableEq, Repr

instance {α : Type} : Inhabited (Versa2 α) := ⟨⟨0, 0, []⟩⟩

/-- The constructor `versa(grid, init)`: an `n0 × n1` array filled with `init`. -/
def Versa2.filled {α : Type} (n0 n1 : Nat) (init : α) : Versa2 α :=
  ⟨n0, n1, List.replicate (n0 * n1) init⟩

/-- The element access `a(y, x)` of `c_grid<2>`: element `y * n1 + x`. -/
def Versa2.get {α : Type} [Zero α] (a : Versa2 α) (y x : Nat) : α :=
  a.elems.getD (y * a.n1 + x) 0

/-- The compound assignment `a(y, x) = f(a(y, x))`. -/
def Versa2.update {α : Type} [Zero α] (a : Versa2 α) (y x : Nat) (f : α → α) : Versa2 α :=
  { a with elems := modifyAt 0 a.elems (y * a.n1 + x) f }

/-- Three-dimensional array `af::versa<T, af::c_grid<3> >`: the extents of the
accessor and the row-major element store. -/
structure Versa3 (α : Type) where
  n0 : Nat
  n1 : Nat
  n2 : Nat
  elems : List α
deriving DecidableEq, Repr

instance {α : Type} : Inhabited (Versa3 α) := ⟨⟨0, 0, 0, []⟩⟩

/-- The element access `a(z, y, x)` of `c_grid<3>`: element `(z * n1 + y) * n2 + x`
of the store. The access is unchecked in C++; a read past the store is given
the value `0` here. -/
def Versa3.get {α : Type} [Zero α] (a : Versa3 α) (z y x : Nat) : α :=
  a.elems.getD ((z * a.n1 + y) * a.n2 + x) 0

/-- The extents `(n0, n1, n2)` of a three-dimensional array. -/
def Versa3.extent {α : Type} (a : Versa3 α) : Nat × Nat × Nat := (a.n0, a.n1, a.n2)

/-! ## Shoebox -/

/-- The members of `model::Shoebox<>` (declared in `dials/model/data/shoebox.h`)
that the constructor uses: the sizes `xsize()`, `ysize()`, `zsize()` of the
bounding box and the three arrays `data`, `background`, `mask`, indexed
`(z, y, x)`. -/
structure Shoebox where
  xsize : Nat
  ysize : Nat
  zsize : Nat
  data : Versa3 ℚ
  background : Versa3 ℚ
  mask : Versa3 Int
deriving DecidableEq, Inhabited

/-- The three arrays have the extents the bounding box declares. -/
def Shoebox.is_consistent (sb : Shoebox) : Bool :=
  decide (sb.data.extent = (sb.zsize, sb.ysize, sb.xsize)) &&
  decide (sb.background.extent = (sb.zsize, sb.ysize, sb.xsize)) &&
  decide (sb.mask.extent = (sb.zsize, sb.ysize, sb.xsize))

/-- Every element `(z, y, x)` with `z < nz`, `y < ny`, `x < nx` is an element of
the store: no read of the box `nz × ny × nx` goes past the store. -/
def Versa3.holds_box {α : Type} (a : Versa3 α) (nz ny nx : Nat) : Bool :=
  (List.range nz).all fun z => (List.range ny).all fun y => (List.range nx).all fun x =>
    decide ((z * a.n1 + y) * a.n2 + x < a.elems.length)

/-- Each of the three arrays holds every element of the box that the bounding
box declares, whether or not its extents are those of the bounding box. -/
def Shoebox.reads_in_store (sb : Shoebox) : Bool :=
  sb.data.holds_box sb.zsize sb.ysize sb.xsize &&
  sb.background.holds_box sb.zsize sb.ysize sb.xsize &&
  sb.mask.holds_box sb.zsize sb.ysize sb.xsize

/-! ## Flattened2DProfileFitting -/

/-- Conversion `std::size_t → int` (32-bit two's complement). -/
def size_t_to_int (n : Nat) : Int :=
  if n % 2 ^ 32 < 2 ^ 31 then ((n % 2 ^ 32 : Nat) : Int) else ((n % 2 ^ 32 : Nat) : Int) - 2 ^ 32

/-- Modelled from the spec: `GridSampler2D` (declared in
`dials/algorithms/integration/profile/grid_sampler_2d.h`, absent here) is
a 2D sampling grid over the detector image; it keeps the image size and the grid
size it is constructed with. -/
structure GridSampler2D where
  image_size : Int × Int
  grid_size : Int × Int
deriving DecidableEq, Repr

/-- The three local arrays of the constructor. -/
structure Flattened where
  flattened_data : List (Versa2 ℚ)
  flattened_bgrd : List (Versa2 ℚ)
  flattened_mask : List (Versa2 Int)
deriving DecidableEq

/-- Body of the innermost loop (lines 41-43): the three compound assignments at
`(y, x)` of the `i`-th flattened arrays. -/
def flattenStep (sb : Shoebox) (i z y : Nat) (st : Flattened) (x : Nat) : Flattened :=
  { flattened_data :=
      modifyAt default st.flattened_data i
        (fun a => a.update y x (fun v => v + sb.data.get z y x)),
    flattened_bgrd :=
      modifyAt default st.flattened_bgrd i
        (fun a => a.update y x (fun v => v + sb.background.get z y x)),
    flattened_mask :=
      modifyAt default st.flattened_mask i
        (fun a => a.update y x (fun v => Int.lor v (sb.mask.get z y x))) }

/-- The loop over `x` (line 40). -/
def flattenX (sb : Shoebox) (i z y : Nat) (st : Flattened) : Flattened :=
  (List.range sb.xsize).foldl (flattenStep sb i z y) st

/-- The loop over `y` (line 39). -/
def flattenY (sb : Shoebox) (i z : Nat) (st : Flattened) : Flattened :=
  (List.range sb.ysize).foldl (fun s y => flattenX sb i z y s) st

/-- The loop over `z` (line 38). -/
def flattenZ (sb : Shoebox) (i : Nat) (st : Flattened) : Flattened :=
  (List.range sb.zsize).foldl (fun s z => flattenY sb i z s) st

/-- Body of the loop over the shoeboxes (lines 34-46): the three arrays of
shoebox `i` are allocated with extent `(ysize, xsize)` and value `0`, then
accumulated. -/
def flattenOne (sbox : List Shoebox) (st : Flattened) (i : Nat) : Flattened :=
  let sb := sbox.getD i default
  flattenZ sb i
    { flattened_data := st.flattened_data.set i (Versa2.filled sb.ysize sb.xsize 0),
      flattened_bgrd := st.flattened_bgrd.set i (Versa2.filled sb.ysize sb.xsize 0),
      flattened_mask := st.flattened_mask.set i (Versa2.filled sb.ysize sb.xsize 0) }

/-- Lines 28-47: allocation of the three lists (one default array per shoebox)
and the loop over the shoeboxes. -/
def flatten (sbox : List Shoebox) : Flattened :=
  (List.range sbox.length).foldl (flattenOne sbox)
    { flattened_data := List.replicate sbox.length default,
      flattened_bgrd := List.replicate sbox.length default,
      flattened_mask := List.replicate sbox.length default }

/-- The object `Flattened2DProfileFitting`: its two private members. -/
structure Flattened2DProfileFitting where
  intensity_ : List ℚ
  variance_ : List ℚ
deriving DecidableEq

/-- What the constructor leaves behind: the object, and the values of its
local variables at the end of the body. -/
structure Construction where
  object : Flattened2DProfileFitting
  flattened : Flattened
  grid : GridSampler2D
deriving DecidableEq

/-- The constructor (lines 22-55). The members `intensity_` and `variance_` are
default-constructed and never assigned. -/
def Flattened2DProfileFitting.construct (image_width image_height : Nat)
    (sbox : List Shoebox) : Construction :=
  let flattened := flatten sbox
  let image_size : Int × Int := (size_t_to_int image_width, size_t_to_int image_height)
  let grid_size : Int × Int := (5, 5)
  { object := { intensity_ := [], variance_ := [] },
    flattened := flattened,
    grid := { image_size := image_size, grid_size := grid_size } }

/-- The accessor `intensity()`. -/
def Flattened2DProfileFitting.intensity (self : Flattened2DProfileFitting) : List ℚ :=
  self.intensity_

/-- The accessor `variance()`. -/
def Flattened2DProfileFitting.variance (self : Flattened2DProfileFitting) : List ℚ :=
  self.variance_

/-! ## The loops seen on one array

The three nested loops act on the arrays of one shoebox only. The functions
below are the same loops written over one element store and one array; the
lemmas of the next part relate them to `flattenX`, `flattenY`, `flattenZ`. -/

/-- The loop over `x` on one element store: `l[base + x] = op(l[base + x], g x)`. -/
def accX {α β : Type} [Zero α] (op : α → β → α) (g : Nat → β) (base n : Nat)
    (l : List α) : List α :=
  (List.range n).foldl (fun s x => modifyAt 0 s (base + x) (fun v => op v (g x))) l

/-- The loop over `y` on one element store with rows of length `c`. -/
def accY {α β : Type} [Zero α] (op : α → β → α) (g : Nat → Nat → β) (c m : Nat)
    (l : List α) : List α :=
  (List.range m).foldl (fun s y => accX op (g y) (y * c) c s) l

/-- The loop over `z` on one element store. -/
def accZ {α β : Type} [Zero α] (op : α → β → α) (g : Nat → Nat → Nat → β) (c m nz : Nat)
    (l : List α) : List α :=
  (List.range nz).foldl (fun s z => accY op (g z) c m s) l

/-- The loop over `x` on one array. -/
def Versa2.loopX {α β : Type} [Zero α] (op : α → β → α) (g : Nat → β) (y nx : Nat)
    (a : Versa2 α) : Versa2 α :=
  (List.range nx).foldl (fun s x => s.update y x (fun v => op v (g x))) a

/-- The loop over `y` on one array. -/
def Versa2.loopY {α β : Type} [Zero α] (op : α → β → α) (g : Nat → Nat → β) (ny nx : Nat)
    (a : Versa2 α) : Versa2 α :=
  (List.range ny).foldl (fun s y => s.loopX op (g y) y nx) a

/-- The loop over `z` on one array. -/
def Versa2.loopZ {α β : Type} [Zero α] (op : α → β → α) (g : Nat → Nat → Nat → β)
    (nz ny nx : Nat) (a : Versa2 α) : Versa2 α :=
  (List.range nz).foldl (fun s z => s.loopY op (g z) ny nx) a

/-- The flattened data array of one shoebox. -/
def Shoebox.flatData (sb : Shoebox) : Versa2 ℚ :=
  (Versa2.filled sb.ysize sb.xsize 0).loopZ (fun v w => v + w) sb.data.get
    sb.zsize sb.ysize sb.xsize

/-- The flattened background array of one shoebox. -/
def Shoebox.flatBgrd (sb : Shoebox) : Versa2 ℚ :=
  (Versa2.filled sb.ysize sb.xsize 0).loopZ (fun v w => v + w) sb.background.get
    sb.zsize sb.ysize sb.xsize

/-- The flattened mask array of one shoebox. -/
def Shoebox.flatMask (sb : Shoebox) : Versa2 Int :=
  (Versa2.filled sb.ysize sb.xsize 0).loopZ (fun v w => Int.lor v w) sb.mask.get
    sb.zsize sb.ysize sb.xsize

/-! ## The reciprocal-space transform

`transform_ext.cc` binds `TransformSpec`, `MapFramesForward` and `Forward`, which
are declared in `transform.h` and `map_frames.h`. Only
`init_forward_from_experiment` is defined in `transform_ext.cc` itself. -/

/-- Modelled from the spec: `TransformSpec` (declared in `transform.h`,
absent here), the configuration bundle built from the experiment geometry, the
beam divergence `sigma_b`, the mosaicity `sigma_m`, the multiplier `n_sigma` and
the grid half-size. Its constructor takes these eight arguments in this order
(lines 65-67). -/
structure TransformSpec (Beam Detector Goniometer Scan : Type) where
  beam : Beam
  detector : Detector
  goniometer : Goniometer
  scan : Scan
  sigma_b : ℚ
  sigma_m : ℚ
  n_sigma : ℚ
  grid_half_size : Nat

/-- Modelled from the spec: `TransformSpec::grid_size()` (absent here), derived as
`2 * grid_half_size + 1` per axis. -/
def TransformSpec.grid_size {Beam Detector Goniometer Scan : Type}
    (self : TransformSpec Beam Detector Goniometer Scan) : Nat × Nat × Nat :=
  (2 * self.grid_half_size + 1, 2 * self.grid_half_size + 1, 2 * self.grid_half_size + 1)

/-- Modelled from the spec: `TransformSpec::grid_centre()` (absent here), equal to
`grid_half_size` in each axis. -/
def TransformSpec.grid_centre {Beam Detector Goniometer Scan : Type}
    (self : TransformSpec Beam Detector Goniometer Scan) : Nat × Nat × Nat :=
  (self.grid_half_size, self.grid_half_size, self.grid_half_size)

/-- The experiment object of which `init_forward_from_experiment` extracts the
attributes `beam`, `detector`, `goniometer` and `scan`. -/
structure Experiment (Beam Detector Goniometer Scan : Type) where
  beam : Beam
  detector : Detector
  goniometer : Goniometer
  scan : Scan

/-- The function `init_forward_from_experiment` (lines 44-56): the four
attributes of the experiment and the remaining arguments are handed to the
constructor of `TransformSpec`, `grid_size` last. -/
def init_forward_from_experiment {Beam Detector Goniometer Scan : Type}
    (experiment : Experiment Beam Detector Goniometer Scan)
    (sigma_b sigma_m nsigma : ℚ) (grid_size : Nat) :
    TransformSpec Beam Detector Goniometer Scan :=
  TransformSpec.mk experiment.beam experiment.detector experiment.goniometer experiment.scan
    sigma_b sigma_m nsigma grid_size

/-- Modelled from the spec: `MapFramesForward` (declared in `map_frames.h`,
absent here), the forward frame mapper, constructed from the starting angle,
the oscillation, the mosaicity, the cutoff `n_sigma` and the grid size along e3
(lines 151-156). -/
structure MapFramesForward where
  starting_angle : ℚ
  oscillation : ℚ
  mosaicity : ℚ
  n_sigma : ℚ
  grid_size_e3 : Int

/-- Modelled from the spec: the normalisation of one row of the forward frame
mapper (absent here). `mass v` is the mass of the frame in plane `v`; the row is
divided by its total, and is zero when the total is zero. -/
def MapFramesForward.row (self : MapFramesForward) (mass : Nat → ℚ) : List ℚ :=
  let raw := (List.range self.grid_size_e3.toNat).map mass
  if raw.sum = 0 then List.replicate self.grid_size_e3.toNat 0
  else raw.map (fun m => m / raw.sum)

/-- Modelled from the spec: the matrix of weights of the forward frame mapper
(absent here) on the frames `frames.1 ≤ j < frames.2`, one normalised row per
frame, for the masses `mass phi zeta j v` of frame `j` in plane `v`. The mapper
itself uses the masses `MapFramesForward.mass`, see `MapFramesForward.apply`. -/
def MapFramesForward.call (self : MapFramesForward) (mass : ℚ → ℚ → Int → Nat → ℚ)
    (frames : Int × Int) (phi zeta : ℚ) : List (List ℚ) :=
  (List.range (frames.2 - frames.1).toNat).map
    (fun (k : Nat) => self.row (mass phi zeta (frames.1 + (k : Int))))

/-- Modelled from the spec: the standard deviation `sigma_m / |zeta|` of the
angular profile of a reflection (absent here). -/
def MapFramesForward.sigma (self : MapFramesForward) (zeta : ℚ) : ℚ :=
  self.mosaicity / |zeta|

/-- Modelled from the spec: the angular extent of the `n_sigma` cutoff around the
rotation angle `phi` of the reflection (absent here). -/
def MapFramesForward.cutoff (self : MapFramesForward) (phi zeta : ℚ) : ℚ × ℚ :=
  (phi - self.n_sigma * self.sigma zeta, phi + self.n_sigma * self.sigma zeta)

/-- Modelled from the spec: the angular extent of image frame `j` (absent here):
one oscillation, counted from the starting angle. -/
def MapFramesForward.frame_extent (self : MapFramesForward) (j : Int) : ℚ × ℚ :=
  (self.starting_angle + (j : ℚ) * self.oscillation,
   self.starting_angle + ((j : ℚ) + 1) * self.oscillation)

/-- Modelled from the spec: the grid half-size along e3 (absent here), the grid
size being `2 * grid_half_size + 1`. -/
def MapFramesForward.grid_half_size (self : MapFramesForward) : Nat :=
  (self.grid_size_e3.toNat - 1) / 2

/-- Modelled from the spec: the step size along e3 (absent here),
`n_sigma * sigma_m / grid_half_size`. -/
def MapFramesForward.step_size (self : MapFramesForward) : ℚ :=
  self.n_sigma * self.mosaicity / (self.grid_half_size : ℚ)

/-- Modelled from the spec: the angular extent of grid plane `v` (absent here).
The plane is one step wide around `c3 = (v - grid_centre) * step_size`, with
`grid_centre = grid_half_size`, and `c3 = zeta * (phi' - phi)`. -/
def MapFramesForward.plane_extent (self : MapFramesForward) (phi zeta : ℚ) (v : Nat) : ℚ × ℚ :=
  let lo := ((v : ℚ) - (self.grid_half_size : ℚ) - 1 / 2) * self.step_size
  let hi := ((v : ℚ) - (self.grid_half_size : ℚ) + 1 / 2) * self.step_size
  (min (phi + lo / zeta) (phi + hi / zeta), max (phi + lo / zeta) (phi + hi / zeta))

/-- Modelled from the spec: the mass of frame `j` in plane `v` (absent here): the
mass that the normal distribution centred at `phi` with standard deviation
`sigma_m / |zeta|` gives to the part of the frame that lies in the plane and
inside the `n_sigma` cutoff; exactly zero when there is no such part. The
cumulative distribution function `cdf` of the standard normal distribution is a
parameter. -/
def MapFramesForward.mass (self : MapFramesForward) (cdf : ℚ → ℚ) (phi zeta : ℚ) (j : Int)
    (v : Nat) : ℚ :=
  let lo := max (max (self.frame_extent j).1 (self.plane_extent phi zeta v).1)
    (self.cutoff phi zeta).1
  let hi := min (min (self.frame_extent j).2 (self.plane_extent phi zeta v).2)
    (self.cutoff phi zeta).2
  if lo < hi then cdf ((hi - phi) / self.sigma zeta) - cdf ((lo - phi) / self.sigma zeta)
  else 0

/-- Modelled from the spec: `MapFramesForward::operator()` (absent here) on the
frames `frames.1 ≤ j < frames.2` of a reflection at rotation angle `phi` with
`zeta`: the normalised rows of the masses of the frames in the planes. -/
def MapFramesForward.apply (self : MapFramesForward) (cdf : ℚ → ℚ) (frames : Int × Int)
    (phi zeta : ℚ) : List (List ℚ) :=
  self.call (self.mass cdf) frames phi zeta

/-- The bounding box `int6`: `(x0, x1, y0, y1, z0, z1)`. -/
structure Int6 where
  x0 : Int
  x1 : Int
  y0 : Int
  y1 : Int
  z0 : Int
  z1 : Int
deriving DecidableEq, Repr

/-- Number of columns of the bounding box. -/
def Int6.xsize (b : Int6) : Nat := (b.x1 - b.x0).toNat

/-- Number of rows of the bounding box. -/
def Int6.ysize (b : Int6) : Nat := (b.y1 - b.y0).toNat

/-- Number of frames of the bounding box. -/
def Int6.zsize (b : Int6) : Nat := (b.z1 - b.z0).toNat

/-- The element access `mask(z, y, x)` of a boolean mask array. -/
def Versa3.getB (a : Versa3 Bool) (z y x : Nat) : Bool :=
  a.elems.getD ((z * a.n1 + y) * a.n2 + x) false

/-- Modelled from the spec: the outputs of `Forward` (declared in `transform.h`,
absent here): the dense profile grid, stored row-major over `(e1, e2, e3)`, and
the z-fraction matrix. -/
structure Forward where
  profile_ : List ℚ
  zfraction_ : List (List ℚ)

/-- Modelled from the spec: the scatter of one pixel value over the planes of the
profile grid (absent here): `profile[e1][e2][e3] += value * w[e3]` for every `e3`
with non-zero weight. -/
def Forward.scatter (gs e1 e2 : Nat) (value : ℚ) (w : List ℚ) (grid : List ℚ) : List ℚ :=
  (List.range gs).foldl
    (fun g e3 =>
      if w.getD e3 0 ≠ 0 then
        modifyAt 0 g ((e1 * gs + e2) * gs + e3) (fun v => v + value * w.getD e3 0)
      else g)
    grid

/-- Modelled from the spec: the treatment of the pixel `(z, y, x)` by `Forward`
(absent here): a valid pixel whose grid cell exists and whose frame has at least
one non-zero weight is scattered; any other pixel is skipped. `index y x` is the
grid cell the grid index generator gives, `none` for the sentinel "outside". -/
def Forward.pixel (gs : Nat) (index : Nat → Nat → Option (Nat × Nat)) (data : Versa3 ℚ)
    (mask : Versa3 Bool) (w : List ℚ) (z y : Nat) (grid : List ℚ) (x : Nat) : List ℚ :=
  if mask.getB z y x = true then
    match index y x with
    | some (e1, e2) =>
      if w.any (fun t => decide (t ≠ 0)) = true then
        Forward.scatter gs e1 e2 (data.get z y x) w grid
      else grid
    | none => grid
  else grid

/-- Modelled from the spec: the treatment of frame `z` by `Forward` (absent
here): the weight row of the frame is fetched, then every pixel of the frame is
treated. -/
def Forward.frame (gs : Nat) (index : Nat → Nat → Option (Nat × Nat)) (bbox : Int6)
    (data : Versa3 ℚ) (mask : Versa3 Bool) (zfraction : List (List ℚ)) (grid : List ℚ)
    (z : Nat) : List ℚ :=
  (List.range bbox.ysize).foldl
    (fun g y =>
      (List.range bbox.xsize).foldl
        (Forward.pixel gs index data mask (zfraction.getD z []) z y) g)
    grid

/-- Modelled from the spec: the `Forward` transform of one reflection (absent
here), from the transform specification, the grid index lookup of the
reflection, the frame mapper, the rotation angle and zeta of the reflection, the
bounding box, the observed data and the mask. The profile grid is
zero-initialised and accumulated frame by frame. -/
def Forward.construct {Beam Detector Goniometer Scan : Type}
    (spec : TransformSpec Beam Detector Goniometer Scan)
    (index : Nat → Nat → Option (Nat × Nat))
    (mapper : MapFramesForward) (mass : ℚ → ℚ → Int → Nat → ℚ) (phi zeta : ℚ)
    (bbox : Int6) (data : Versa3 ℚ) (mask : Versa3 Bool) : Forward :=
  let gs := spec.grid_size.1
  let zfraction := mapper.call mass (bbox.z0, bbox.z1) phi zeta
  { profile_ :=
      (List.range bbox.zsize).foldl (Forward.frame gs index bbox data mask zfraction)
        (List.replicate (gs * gs * gs) 0),
    zfraction_ := zfraction }

/-- The accessor `profile()`. -/
def Forward.profile (self : Forward) : List ℚ := self.profile_

/-- The accessor `zfraction()`. -/
def Forward.zfraction (self : Forward) : List (List ℚ) := self.zfraction_

/-- Modelled from the spec: the typed failures of the error handling design. -/
inductive TransformError where
  | GeometryDegenerate
  | DimensionMismatch
  | ConfigurationInvalid
deriving DecidableEq, Repr

/-- Modelled from the spec: the extent check of the constructors of `Forward`
(absent here): the observed data, the mask and, when supplied, the background
have the extents the bounding box declares. -/
def Forward.dimensions_agree (bbox : Int6) (data : Versa3 ℚ)
    (background : Option (Versa3 ℚ)) (mask : Versa3 Bool) : Bool :=
  decide (data.extent = (bbox.zsize, bbox.ysize, bbox.xsize)) &&
  decide (mask.extent = (bbox.zsize, bbox.ysize, bbox.xsize)) &&
  (match background with
    | none => true
    | some b => decide (b.extent = (bbox.zsize, bbox.ysize, bbox.xsize)))

/-- Modelled from the spec: the constructors of `Forward` bound in lines 78-96
(absent here), without and with a background array. A disagreement of extents
is reported as `DimensionMismatch` before anything is processed; otherwise the
profile grid and, when a background is supplied, the background grid are
accumulated. -/
def Forward.checked_construct {Beam Detector Goniometer Scan : Type}
    (spec : TransformSpec Beam Detector Goniometer Scan)
    (index : Nat → Nat → Option (Nat × Nat))
    (mapper : MapFramesForward) (mass : ℚ → ℚ → Int → Nat → ℚ) (phi zeta : ℚ)
    (bbox : Int6) (data : Versa3 ℚ) (background : Option (Versa3 ℚ)) (mask : Versa3 Bool) :
    Except TransformError (Forward × Option (List ℚ)) :=
  if Forward.dimensions_agree bbox data background mask = true then
    Except.ok
      (Forward.construct spec index mapper mass phi zeta bbox data mask,
       background.map
         (fun b => (Forward.construct spec index mapper mass phi zeta bbox b mask).profile_))
  else Except.error TransformError.DimensionMismatch

/-! ## Sample inputs -/

/-- A shoebox of two frames of one row and two columns; the three arrays
have the extents of the bounding box. -/
def sampleShoebox : Shoebox :=
  { xsize := 2, ysize := 1, zsize := 2,
    data := ⟨2, 1, 2, [1, 2, 3, 4]⟩,
    background := ⟨2, 1, 2, [1 / 2, 0, 0, 1 / 3]⟩,
    mask := ⟨2, 1, 2, [1, 4, 2, 0]⟩ }

/-- A shoebox whose bounding box declares one element while its data array
has extents `(2, 2, 2)`, its background array `(1, 1, 1)` and its mask array
`(1, 1, 1)`. -/
def mismatchedShoebox : Shoebox :=
  { xsize := 1, ysize := 1, zsize := 1,
    data := ⟨2, 2, 2, [7, 7, 7, 7, 7, 7, 7, 7]⟩,
    background := ⟨1, 1, 1, [0]⟩,
    mask := ⟨1, 1, 1, [5]⟩ }

/-- A shoebox of one element with the value `7`, consistent with its bounding box. -/
def unitShoebox : Shoebox :=
  { xsize := 1, ysize := 1, zsize := 1,
    data := ⟨1, 1, 1, [7]⟩,
    background := ⟨1, 1, 1, [0]⟩,
    mask := ⟨1, 1, 1, [5]⟩ }

/-- A frame mapper with three planes along e3. -/
def sampleMapper : MapFramesForward :=
  { starting_angle := 0, oscillation := 1 / 10, mosaicity := 1 / 20, n_sigma := 3,
    grid_size_e3 := 3 }

/-- A mass function: every frame from frame 0 on has the masses `1, 2, 1` in the
three planes, every earlier frame lies outside the cutoff. -/
def sampleMass (_phi _zeta : ℚ) (j : Int) (v : Nat) : ℚ :=
  if 0 ≤ j then (if v = 1 then 2 else 1) else 0

/-- A stand-in for the cumulative distribution function, rising linearly from 0
at `-3` to 1 at `3`. -/
def sampleCdf (t : ℚ) : ℚ := max 0 (min 1 ((t + 3) / 6))

/-- A transform specification with grid half-size 1, hence a profile grid of
`3 × 3 × 3` cells. -/
def sampleSpec : TransformSpec Unit Unit Unit Unit :=
  { beam := (), detector := (), goniometer := (), scan := (),
    sigma_b := 1 / 100, sigma_m := 1 / 20, n_sigma := 3, grid_half_size := 1 }

/-- A grid index lookup that places the pixel `(y, x)` in the cell `(y + 1, x)`. -/
def sampleIndex (y x : Nat) : Option (Nat × Nat) := some (y + 1, x)

/-- The bounding box of `sampleShoebox`: two columns, one row, frames 0 and 1. -/
def sampleBox : Int6 := { x0 := 0, x1 := 2, y0 := 0, y1 := 1, z0 := 0, z1 := 2 }

/-- A mask array of extents `(2, 1, 2)` with every pixel valid. -/
def sampleMask : Versa3 Bool := ⟨2, 1, 2, [true, true, true, true]⟩

/-! ## Lemmas on the element stores -/

section Lemmas

variable {α β : Type}

theorem length_modifyAt (d : α) (l : List α) (k : Nat) (f : α → α) :
    (modifyAt d l k f).length = l.length := by
  simp [modifyAt]

theorem getD_modifyAt (d : α) (l : List α) (k j : Nat) (f : α → α) :
    (modifyAt d l k f).getD j d =
      if j = k ∧ k < l.length then f (l.getD k d) else l.getD j d := by
  unfold modifyAt
  by_cases hjk : j = k
  · subst hjk
    by_cases hlt : j < l.length
    · simp [List.getD_eq_getElem?_getD, List.getElem?_set, hlt]
    · have hn : l[j]? = none := List.getElem?_eq_none (by omega)
      simp [List.getD_eq_getElem?_getD, List.getElem?_set, hlt, hn]
  · have : k ≠ j := fun h => hjk h.symm
    simp [List.getD_eq_getElem?_getD, List.getElem?_set, hjk, this]

theorem modifyAt_set (d : α) (l : List α) (k : Nat) (a : α) (f : α → α) :
    modifyAt d (l.set k a) k f = l.set k (f a) := by
  unfold modifyAt
  by_cases hlt : k < l.length
  · simp [List.getD_eq_getElem?_getD, List.getElem?_set, hlt, List.set_set]
  · have h1 : ∀ b : α, l.set k b = l := by
      intro b
      exact List.set_eq_of_length_le (by omega)
    simp [h1]
end Lemmas

section Acc
variable {α β : Type} [Zero α]

theorem length_accX (op : α → β → α) (g : Nat → β) (base n : Nat) (l : List α) :
    (accX op g base n l).length = l.length := by
  induction n with
  | zero => simp [accX]
  | succ n ih =>
    have : accX op g base (n + 1) l =
        modifyAt 0 (accX op g base n l) (base + n) (fun v => op v (g n)) := by
      simp [accX, List.range_succ, List.foldl_append]
    rw [this, length_modifyAt, ih]

theorem getD_accX_aux (op : α → β → α) (g : Nat → β) (base n : Nat) (l : List α) (j : Nat)
    (hj : base + n ≤ j) : (accX op g base n l).getD j 0 = l.getD j 0 := by
  induction n with
  | zero => simp [accX]
  | succ n ih =>
    have hs : accX op g base (n + 1) l =
        modifyAt 0 (accX op g base n l) (base + n) (fun v => op v (g n)) := by
      simp [accX, List.range_succ, List.foldl_append]
    rw [hs, getD_modifyAt, if_neg (by omega), ih (by omega)]

theorem getD_accX (op : α → β → α) (g : Nat → β) (base n : Nat) (l : List α) (j : Nat) :
    (accX op g base n l).getD j 0 =
      if base ≤ j ∧ j < base + n ∧ j < l.length then op (l.getD j 0) (g (j - base))
      else l.getD j 0 := by
  induction n with
  | zero =>
    rw [if_neg (by omega)]
    simp [accX]
  | succ n ih =>
    have hs : accX op g base (n + 1) l =
        modifyAt 0 (accX op g base n l) (base + n) (fun v => op v (g n)) := by
      simp [accX, List.range_succ, List.foldl_append]
    rw [hs, getD_modifyAt, length_accX]
    by_cases h1 : j = base + n ∧ base + n < l.length
    · obtain ⟨hj, hl⟩ := h1
      have ihn := getD_accX_aux op g base n l (base + n) (le_refl _)
      rw [if_pos ⟨hj, hl⟩, ihn, if_pos ⟨by omega, by omega, by omega⟩, hj,
        Nat.add_sub_cancel_left]
    · rw [if_neg h1, ih]
      by_cases h2 : base ≤ j ∧ j < base + n ∧ j < l.length
      · rw [if_pos h2, if_pos ⟨h2.1, by omega, h2.2.2⟩]
      · rw [if_neg h2, if_neg]
        intro h3
        apply h2
        refine ⟨h3.1, ?_, h3.2.2⟩
        by_contra h4
        exact h1 ⟨by omega, by omega⟩
end Acc

section AccYZ
variable {α β : Type} [Zero α]

theorem accY_succ (op : α → β → α) (g : Nat → Nat → β) (c m : Nat) (l : List α) :
    accY op g c (m + 1) l = accX op (g m) (m * c) c (accY op g c m l) := by
  simp [accY, List.range_succ, List.foldl_append]

theorem length_accY (op : α → β → α) (g : Nat → Nat → β) (c m : Nat) (l : List α) :
    (accY op g c m l).length = l.length := by
  induction m with
  | zero => simp [accY]
  | succ m ih => rw [accY_succ, length_accX, ih]

theorem div_mod_of_row (c m j : Nat) (h1 : m * c ≤ j) (h2 : j < m * c + c) :
    j / c = m ∧ j % c = j - m * c := by
  have hc : 0 < c := by omega
  obtain ⟨r, rfl⟩ : ∃ r, j = r + m * c := ⟨j - m * c, by omega⟩
  have hr : r < c := by omega
  constructor
  · rw [Nat.add_mul_div_right _ _ hc, Nat.div_eq_of_lt hr, Nat.zero_add]
  · rw [Nat.add_mul_mod_self_right, Nat.mod_eq_of_lt hr, Nat.add_sub_cancel]

theorem getD_accY (op : α → β → α) (g : Nat → Nat → β) (c m : Nat) (l : List α) (j : Nat) :
    (accY op g c m l).getD j 0 =
      if j < m * c ∧ j < l.length then op (l.getD j 0) (g (j / c) (j % c))
      else l.getD j 0 := by
  induction m with
  | zero =>
    rw [if_neg (by omega)]
    simp [accY]
  | succ m ih =>
    rw [accY_succ, getD_accX, length_accY, ih]
    have hmul : (m + 1) * c = m * c + c := Nat.succ_mul m c
    by_cases hA : m * c ≤ j ∧ j < m * c + c ∧ j < l.length
    · obtain ⟨hd, hm⟩ := div_mod_of_row c m j hA.1 hA.2.1
      rw [if_pos hA, if_neg (by omega), if_pos ⟨by omega, hA.2.2⟩, hd, hm]
    · rw [if_neg hA]
      by_cases hB : j < m * c ∧ j < l.length
      · rw [if_pos hB, if_pos ⟨by omega, hB.2⟩]
      · rw [if_neg hB, if_neg (by omega)]

theorem accZ_succ (op : α → β → α) (g : Nat → Nat → Nat → β) (c m nz : Nat) (l : List α) :
    accZ op g c m (nz + 1) l = accY op (g nz) c m (accZ op g c m nz l) := by
  simp [accZ, List.range_succ, List.foldl_append]

theorem length_accZ (op : α → β → α) (g : Nat → Nat → Nat → β) (c m nz : Nat) (l : List α) :
    (accZ op g c m nz l).length = l.length := by
  induction nz with
  | zero => simp [accZ]
  | succ nz ih => rw [accZ_succ, length_accY, ih]

theorem getD_accZ (op : α → β → α) (g : Nat → Nat → Nat → β) (c m nz : Nat) (l : List α)
    (j : Nat) :
    (accZ op g c m nz l).getD j 0 =
      if j < m * c ∧ j < l.length then
        (List.range nz).foldl (fun acc z => op acc (g z (j / c) (j % c))) (l.getD j 0)
      else l.getD j 0 := by
  induction nz with
  | zero => simp [accZ]
  | succ nz ih =>
    rw [accZ_succ, getD_accY, length_accZ, ih]
    by_cases h : j < m * c ∧ j < l.length
    · simp [if_pos h, List.range_succ, List.foldl_append]
    · simp [if_neg h]

end AccYZ

section Lift
variable {α β : Type} [Zero α]

theorem Versa2.loopX_eq (op : α → β → α) (g : Nat → β) (y nx : Nat) (a : Versa2 α) :
    a.loopX op g y nx = ⟨a.n0, a.n1, accX op g (y * a.n1) nx a.elems⟩ := by
  induction nx with
  | zero => simp [Versa2.loopX, accX]
  | succ n ih =>
    have hs : a.loopX op g y (n + 1) =
        (a.loopX op g y n).update y n (fun v => op v (g n)) := by
      simp [Versa2.loopX, List.range_succ, List.foldl_append]
    rw [hs, ih]
    simp [Versa2.update, accX, List.range_succ, List.foldl_append]

theorem Versa2.loopY_eq (op : α → β → α) (g : Nat → Nat → β) (ny : Nat) (a : Versa2 α) :
    a.loopY op g ny a.n1 = ⟨a.n0, a.n1, accY op g a.n1 ny a.elems⟩ := by
  induction ny with
  | zero => simp [Versa2.loopY, accY]
  | succ n ih =>
    have hs : a.loopY op g (n + 1) a.n1 = (a.loopY op g n a.n1).loopX op (g n) n a.n1 := by
      simp [Versa2.loopY, List.range_succ, List.foldl_append]
    rw [hs, ih, Versa2.loopX_eq, accY_succ]

theorem Versa2.loopZ_eq (op : α → β → α) (g : Nat → Nat → Nat → β) (nz ny : Nat)
    (a : Versa2 α) :
    a.loopZ op g nz ny a.n1 = ⟨a.n0, a.n1, accZ op g a.n1 ny nz a.elems⟩ := by
  induction nz with
  | zero => simp [Versa2.loopZ, accZ]
  | succ n ih =>
    have hs : a.loopZ op g (n + 1) ny a.n1 = (a.loopZ op g n ny a.n1).loopY op (g n) ny a.n1 := by
      simp [Versa2.loopZ, List.range_succ, List.foldl_append]
    rw [hs, ih]
    have := Versa2.loopY_eq op (g n) ny ⟨a.n0, a.n1, accZ op g a.n1 ny n a.elems⟩
    simp only at this
    rw [this, accZ_succ]

end Lift

theorem foldl_set_lift {ι : Type} (f : Flattened → ι → Flattened) (i : Nat)
    (fa fb : ι → Versa2 ℚ → Versa2 ℚ) (fm : ι → Versa2 Int → Versa2 Int)
    (h : ∀ D B M a b m t, f ⟨List.set D i a, List.set B i b, List.set M i m⟩ t =
      ⟨List.set D i (fa t a), List.set B i (fb t b), List.set M i (fm t m)⟩)
    (xs : List ι) (D B : List (Versa2 ℚ)) (M : List (Versa2 Int))
    (a b : Versa2 ℚ) (m : Versa2 Int) :
    xs.foldl f ⟨List.set D i a, List.set B i b, List.set M i m⟩ =
      ⟨List.set D i (xs.foldl (fun s t => fa t s) a),
       List.set B i (xs.foldl (fun s t => fb t s) b),
       List.set M i (xs.foldl (fun s t => fm t s) m)⟩ := by
  induction xs generalizing a b m with
  | nil => rfl
  | cons t ts ih => simp only [List.foldl_cons, h, ih]

theorem flattenStep_set (sb : Shoebox) (i z y x : Nat) (D B : List (Versa2 ℚ))
    (M : List (Versa2 Int)) (a b : Versa2 ℚ) (m : Versa2 Int) :
    flattenStep sb i z y ⟨List.set D i a, List.set B i b, List.set M i m⟩ x =
      ⟨List.set D i (a.update y x (fun v => v + sb.data.get z y x)),
       List.set B i (b.update y x (fun v => v + sb.background.get z y x)),
       List.set M i (m.update y x (fun v => Int.lor v (sb.mask.get z y x)))⟩ := by
  simp only [flattenStep, modifyAt_set]

theorem flattenX_set (sb : Shoebox) (i z y : Nat) (D B : List (Versa2 ℚ))
    (M : List (Versa2 Int)) (a b : Versa2 ℚ) (m : Versa2 Int) :
    flattenX sb i z y ⟨List.set D i a, List.set B i b, List.set M i m⟩ =
      ⟨List.set D i (a.loopX (fun v w => v + w) (sb.data.get z y) y sb.xsize),
       List.set B i (b.loopX (fun v w => v + w) (sb.background.get z y) y sb.xsize),
       List.set M i (m.loopX (fun v w => Int.lor v w) (sb.mask.get z y) y sb.xsize)⟩ := by
  unfold flattenX
  rw [foldl_set_lift (flattenStep sb i z y) i _ _ _
    (fun D B M a b m t => flattenStep_set sb i z y t D B M a b m)]
  rfl

theorem flattenY_set (sb : Shoebox) (i z : Nat) (D B : List (Versa2 ℚ))
    (M : List (Versa2 Int)) (a b : Versa2 ℚ) (m : Versa2 Int) :
    flattenY sb i z ⟨List.set D i a, List.set B i b, List.set M i m⟩ =
      ⟨List.set D i (a.loopY (fun v w => v + w) (sb.data.get z) sb.ysize sb.xsize),
       List.set B i (b.loopY (fun v w => v + w) (sb.background.get z) sb.ysize sb.xsize),
       List.set M i (m.loopY (fun v w => Int.lor v w) (sb.mask.get z) sb.ysize sb.xsize)⟩ := by
  unfold flattenY
  rw [foldl_set_lift (fun s y => flattenX sb i z y s) i _ _ _
    (fun D B M a b m t => flattenX_set sb i z t D B M a b m)]
  rfl

theorem flattenZ_set (sb : Shoebox) (i : Nat) (D B : List (Versa2 ℚ))
    (M : List (Versa2 Int)) (a b : Versa2 ℚ) (m : Versa2 Int) :
    flattenZ sb i ⟨List.set D i a, List.set B i b, List.set M i m⟩ =
      ⟨List.set D i (a.loopZ (fun v w => v + w) sb.data.get sb.zsize sb.ysize sb.xsize),
       List.set B i (b.loopZ (fun v w => v + w) sb.background.get sb.zsize sb.ysize sb.xsize),
       List.set M i (m.loopZ (fun v w => Int.lor v w) sb.mask.get sb.zsize sb.ysize sb.xsize)⟩ := by
  unfold flattenZ
  rw [foldl_set_lift (fun s z => flattenY sb i z s) i _ _ _
    (fun D B M a b m t => flattenY_set sb i t D B M a b m)]
  rfl

theorem flattenOne_eq (sbox : List Shoebox) (st : Flattened) (i : Nat) :
    flattenOne sbox st i =
      ⟨st.flattened_data.set i (sbox.getD i default).flatData,
       st.flattened_bgrd.set i (sbox.getD i default).flatBgrd,
       st.flattened_mask.set i (sbox.getD i default).flatMask⟩ := by
  simp only [flattenOne, flattenZ_set]
  rfl

theorem set_upto {γ : Type} (h : Shoebox → γ) (d : γ) (sbox : List Shoebox) (n : Nat)
    (hn : n < sbox.length) :
    ((sbox.take n).map h ++ List.replicate (sbox.length - n) d).set n
        (h (sbox.getD n default)) =
      (sbox.take (n + 1)).map h ++ List.replicate (sbox.length - (n + 1)) d := by
  have hlen : ((sbox.take n).map h).length = n := by
    simp [List.length_take]; omega
  have hk : sbox.length - n = (sbox.length - (n + 1)) + 1 := by omega
  have hget : sbox.getD n default = sbox[n] := by
    simp [List.getD_eq_getElem?_getD, List.getElem?_eq_getElem hn]
  have ht : (sbox.take (n + 1)).map h = (sbox.take n).map h ++ [h sbox[n]] := by
    rw [List.take_succ, List.getElem?_eq_getElem hn]
    simp only [Option.toList, List.map_append, List.map_cons, List.map_nil]
  rw [List.set_append_right _ _ (by omega), hlen, Nat.sub_self, hk, List.replicate_succ,
    List.set_cons_zero, ht, hget, List.append_assoc]
  rfl

theorem flatten_upto (sbox : List Shoebox) (n : Nat) (hn : n ≤ sbox.length) :
    (List.range n).foldl (flattenOne sbox)
        { flattened_data := List.replicate sbox.length default,
          flattened_bgrd := List.replicate sbox.length default,
          flattened_mask := List.replicate sbox.length default } =
      ⟨(sbox.take n).map Shoebox.flatData ++ List.replicate (sbox.length - n) default,
       (sbox.take n).map Shoebox.flatBgrd ++ List.replicate (sbox.length - n) default,
       (sbox.take n).map Shoebox.flatMask ++ List.replicate (sbox.length - n) default⟩ := by
  induction n with
  | zero => simp
  | succ n ih =>
    rw [List.range_succ, List.foldl_append, ih (by omega)]
    simp only [List.foldl_cons, List.foldl_nil, flattenOne_eq]
    rw [set_upto _ _ _ _ hn, set_upto _ _ _ _ hn, set_upto _ _ _ _ hn]

theorem flatten_eq_map (sbox : List Shoebox) :
    flatten sbox =
      ⟨sbox.map Shoebox.flatData, sbox.map Shoebox.flatBgrd, sbox.map Shoebox.flatMask⟩ := by
  unfold flatten
  rw [flatten_upto sbox sbox.length (le_refl _)]
  simp

section One
variable {α β : Type} [Zero α]

theorem filled_loopZ (op : α → β → α) (g : Nat → Nat → Nat → β) (nz ny nx : Nat) :
    (Versa2.filled ny nx (0 : α)).loopZ op g nz ny nx =
      ⟨ny, nx, accZ op g nx ny nz (List.replicate (ny * nx) 0)⟩ :=
  Versa2.loopZ_eq op g nz ny (Versa2.filled ny nx 0)

theorem index_lt (ny nx y x : Nat) (hy : y < ny) (hx : x < nx) : y * nx + x < ny * nx := by
  have h : (y + 1) * nx ≤ ny * nx := Nat.mul_le_mul_right nx hy
  rw [Nat.succ_mul] at h
  omega

theorem get_filled_loopZ (op : α → β → α) (g : Nat → Nat → Nat → β) (nz ny nx y x : Nat)
    (hy : y < ny) (hx : x < nx) :
    ((Versa2.filled ny nx (0 : α)).loopZ op g nz ny nx).get y x =
      (List.range nz).foldl (fun acc z => op acc (g z y x)) 0 := by
  have hlt := index_lt ny nx y x hy hx
  obtain ⟨hd, hm⟩ := div_mod_of_row nx y (y * nx + x) (Nat.le_add_right _ _) (by omega)
  rw [filled_loopZ]
  unfold Versa2.get
  simp only
  rw [getD_accZ, if_pos ⟨hlt, by simpa using hlt⟩, hd, hm, Nat.add_sub_cancel_left]
  simp [List.getD_eq_getElem?_getD, List.getElem?_replicate, hlt]

end One

theorem foldl_add_eq_sum (f : Nat → ℚ) (n : Nat) :
    (List.range n).foldl (fun acc z => acc + f z) 0 = ∑ z ∈ Finset.range n, f z := by
  induction n with
  | zero => simp
  | succ n ih => simp [List.range_succ, List.foldl_append, Finset.sum_range_succ, ih]

theorem testBit_foldl_lor (f : Nat → Int) (n k : Nat) :
    ((List.range n).foldl (fun acc z => Int.lor acc (f z)) 0).testBit k = true ↔
      ∃ z, z < n ∧ (f z).testBit k = true := by
  induction n with
  | zero => simp [Int.testBit]
  | succ n ih =>
    simp only [List.range_succ, List.foldl_append, List.foldl_cons, List.foldl_nil,
      Int.testBit_lor, Bool.or_eq_true, ih]
    constructor
    · rintro (⟨z, hz, hb⟩ | hb)
      · exact ⟨z, by omega, hb⟩
      · exact ⟨n, by omega, hb⟩
    · rintro ⟨z, hz, hb⟩
      by_cases hzn : z = n
      · subst hzn
        exact Or.inr hb
      · exact Or.inl ⟨z, by omega, hb⟩

/-! ## One shoebox -/

theorem flatData_get (sb : Shoebox) (y x : Nat) (hy : y < sb.ysize) (hx : x < sb.xsize) :
    sb.flatData.get y x = ∑ z ∈ Finset.range sb.zsize, sb.data.get z y x := by
  unfold Shoebox.flatData
  rw [get_filled_loopZ _ _ _ _ _ _ _ hy hx, foldl_add_eq_sum]

theorem flatBgrd_get (sb : Shoebox) (y x : Nat) (hy : y < sb.ysize) (hx : x < sb.xsize) :
    sb.flatBgrd.get y x = ∑ z ∈ Finset.range sb.zsize, sb.background.get z y x := by
  unfold Shoebox.flatBgrd
  rw [get_filled_loopZ _ _ _ _ _ _ _ hy hx, foldl_add_eq_sum]

theorem flatMask_get (sb : Shoebox) (y x : Nat) (hy : y < sb.ysize) (hx : x < sb.xsize) :
    sb.flatMask.get y x =
      (List.range sb.zsize).foldl (fun acc z => Int.lor acc (sb.mask.get z y x)) 0 := by
  unfold Shoebox.flatMask
  rw [get_filled_loopZ _ _ _ _ _ _ _ hy hx]

theorem flatten_data_getElem? (sbox : List Shoebox) (i : Nat) :
    (flatten sbox).flattened_data[i]? = sbox[i]?.map Shoebox.flatData := by
  rw [flatten_eq_map]
  simp

theorem flatten_bgrd_getElem? (sbox : List Shoebox) (i : Nat) :
    (flatten sbox).flattened_bgrd[i]? = sbox[i]?.map Shoebox.flatBgrd := by
  rw [flatten_eq_map]
  simp

theorem flatten_mask_getElem? (sbox : List Shoebox) (i : Nat) :
    (flatten sbox).flattened_mask[i]? = sbox[i]?.map Shoebox.flatMask := by
  rw [flatten_eq_map]
  simp

/-! ## The claims on Flattened2DProfileFitting -/

/-- C1: for every shoebox `i` of the input list and every `(y, x)` inside its
extent, the flattened data value at `(y, x)` is the sum over the frames
`z < zsize` of `data(z, y, x)`, and the flattened background value is the sum
over the frames of `background(z, y, x)`. -/
theorem flattened_data_is_frame_sum (image_width image_height : Nat) (sbox : List Shoebox)
    (i : Nat) (hi : i < sbox.length) (y x : Nat)
    (hy : y < sbox[i].ysize) (hx : x < sbox[i].xsize) :
    ((Flattened2DProfileFitting.construct image_width image_height sbox).flattened.flattened_data[i]?).map
        (fun d => d.get y x) =
      some (∑ z ∈ Finset.range sbox[i].zsize, sbox[i].data.get z y x) ∧
    ((Flattened2DProfileFitting.construct image_width image_height sbox).flattened.flattened_bgrd[i]?).map
        (fun b => b.get y x) =
      some (∑ z ∈ Finset.range sbox[i].zsize, sbox[i].background.get z y x) := by
  simp only [Flattened2DProfileFitting.construct, flatten_data_getElem?, flatten_bgrd_getElem?,
    List.getElem?_eq_getElem hi, Option.map_some', flatData_get _ _ _ hy hx,
    flatBgrd_get _ _ _ hy hx, and_self]

/-- Witness of C1 on a list of one shoebox with two frames. -/
theorem flattened_data_is_frame_sum_witness :
    (0 < [sampleShoebox].length ∧ 0 < sampleShoebox.ysize ∧ 1 < sampleShoebox.xsize) ∧
    (((Flattened2DProfileFitting.construct 8 8 [sampleShoebox]).flattened.flattened_data[0]?).map
        (fun d => d.get 0 1) =
      some (∑ z ∈ Finset.range sampleShoebox.zsize, sampleShoebox.data.get z 0 1) ∧
    ((Flattened2DProfileFitting.construct 8 8 [sampleShoebox]).flattened.flattened_bgrd[0]?).map
        (fun b => b.get 0 1) =
      some (∑ z ∈ Finset.range sampleShoebox.zsize, sampleShoebox.background.get z 0 1)) :=
  ⟨by decide, flattened_data_is_frame_sum 8 8 [sampleShoebox] 0 (by decide) 0 1
    (by decide) (by decide)⟩

/-- C2: for every shoebox `i` and every `(y, x)` inside its extent, the flattened
mask value at `(y, x)` is the bitwise OR over the frames `z < zsize` of
`mask(z, y, x)`; a bit is set in it if and only if it is set in the mask of at
least one frame at `(y, x)`. -/
theorem flattened_mask_is_frame_or (image_width image_height : Nat) (sbox : List Shoebox)
    (i : Nat) (hi : i < sbox.length) (y x : Nat)
    (hy : y < sbox[i].ysize) (hx : x < sbox[i].xsize) :
    ((Flattened2DProfileFitting.construct image_width image_height sbox).flattened.flattened_mask[i]?).map
        (fun m => m.get y x) =
      some ((List.range sbox[i].zsize).foldl
        (fun acc z => Int.lor acc (sbox[i].mask.get z y x)) 0) ∧
    ∀ k : Nat,
      ((Flattened2DProfileFitting.construct image_width image_height sbox).flattened.flattened_mask[i]?).map
          (fun m => (m.get y x).testBit k) = some true ↔
        ∃ z, z < sbox[i].zsize ∧ (sbox[i].mask.get z y x).testBit k = true := by
  simp only [Flattened2DProfileFitting.construct, flatten_mask_getElem?,
    List.getElem?_eq_getElem hi, Option.map_some', flatMask_get _ _ _ hy hx, true_and,
    Option.some.injEq]
  intro k
  exact testBit_foldl_lor _ _ _

/-- Witness of C2 on a list of one shoebox with two frames. -/
theorem flattened_mask_is_frame_or_witness :
    (0 < [sampleShoebox].length ∧ 0 < sampleShoebox.ysize ∧ 0 < sampleShoebox.xsize) ∧
    (((Flattened2DProfileFitting.construct 8 8 [sampleShoebox]).flattened.flattened_mask[0]?).map
        (fun m => m.get 0 0) =
      some ((List.range sampleShoebox.zsize).foldl
        (fun acc z => Int.lor acc (sampleShoebox.mask.get z 0 0)) 0) ∧
    ∀ k : Nat,
      ((Flattened2DProfileFitting.construct 8 8 [sampleShoebox]).flattened.flattened_mask[0]?).map
          (fun m => (m.get 0 0).testBit k) = some true ↔
        ∃ z, z < sampleShoebox.zsize ∧ (sampleShoebox.mask.get z 0 0).testBit k = true) :=
  ⟨by decide, flattened_mask_is_frame_or 8 8 [sampleShoebox] 0 (by decide) 0 0
    (by decide) (by decide)⟩

/-- C3: for every image width, image height and list of shoeboxes, the
accessors `intensity()` and `variance()` of the constructed object return empty
arrays. -/
theorem intensity_variance_empty (image_width image_height : Nat) (sbox : List Shoebox) :
    (Flattened2DProfileFitting.construct image_width image_height sbox).object.intensity = [] ∧
    (Flattened2DProfileFitting.construct image_width image_height sbox).object.variance = [] :=
  ⟨rfl, rfl⟩

/-- C8 as stated fails: for the image width `2 ^ 31` the image size of the
sampling grid is not `(2 ^ 31, 1)`, the width having been converted to `int`. -/
theorem grid_image_size_wraps :
    (Flattened2DProfileFitting.construct (2 ^ 31) 1 []).grid.image_size ≠
      (((2 ^ 31 : Nat) : Int), ((1 : Nat) : Int)) := by
  decide

/-- C8 amended: for every image width, image height and list of shoeboxes, the
grid size of the sampling grid is `(5, 5)`; the first component of its image
size is `image_width` whenever `image_width < 2 ^ 31` and the second is
`image_height` whenever `image_height < 2 ^ 31`, so that the image size is
`(image_width, image_height)` when both are below `2 ^ 31`. -/
theorem grid_sizes (image_width image_height : Nat) (sbox : List Shoebox) :
    (Flattened2DProfileFitting.construct image_width image_height sbox).grid.grid_size = (5, 5) ∧
    (image_width < 2 ^ 31 →
      (Flattened2DProfileFitting.construct image_width image_height sbox).grid.image_size.1 =
        (image_width : Int)) ∧
    (image_height < 2 ^ 31 →
      (Flattened2DProfileFitting.construct image_width image_height sbox).grid.image_size.2 =
        (image_height : Int)) ∧
    (image_width < 2 ^ 31 → image_height < 2 ^ 31 →
      (Flattened2DProfileFitting.construct image_width image_height sbox).grid.image_size =
        ((image_width : Int), (image_height : Int))) := by
  have hconv : ∀ n : Nat, n < 2 ^ 31 → size_t_to_int n = (n : Int) := by
    intro n hn
    have h1 : n % 2 ^ 32 = n := Nat.mod_eq_of_lt (by omega)
    simp only [size_t_to_int, h1, if_pos hn]
  refine ⟨rfl, fun hw => hconv _ hw, fun hh => hconv _ hh, fun hw hh => ?_⟩
  simp only [Flattened2DProfileFitting.construct, hconv _ hw, hconv _ hh]

/-- Witness of the amended C8: a 2463 by 2527 image, and the grid size and the
image height for the image width `2 ^ 31`. -/
theorem grid_sizes_witness :
    (2463 < 2 ^ 31 ∧ 2527 < 2 ^ 31 ∧ 1 < 2 ^ 31) ∧
    (Flattened2DProfileFitting.construct 2463 2527 [sampleShoebox]).grid.grid_size = (5, 5) ∧
    (Flattened2DProfileFitting.construct 2463 2527 [sampleShoebox]).grid.image_size =
      (((2463 : Nat) : Int), ((2527 : Nat) : Int)) ∧
    (Flattened2DProfileFitting.construct (2 ^ 31) 1 []).grid.grid_size = (5, 5) ∧
    (Flattened2DProfileFitting.construct (2 ^ 31) 1 []).grid.image_size.2 = ((1 : Nat) : Int) :=
  ⟨by decide, (grid_sizes 2463 2527 [sampleShoebox]).1,
    (grid_sizes 2463 2527 [sampleShoebox]).2.2.2 (by decide) (by decide),
    (grid_sizes (2 ^ 31) 1 []).1, (grid_sizes (2 ^ 31) 1 []).2.2.1 (by decide)⟩

theorem list_sum_eq_sum_range (l : List ℚ) :
    l.sum = ∑ j ∈ Finset.range l.length, l.getD j 0 := by
  induction l with
  | nil => simp
  | cons a l ih =>
    rw [List.length_cons, Finset.sum_range_succ', List.sum_cons, ih, add_comm]
    simp

theorem sum_range_rows (F : Nat → Nat → ℚ) (G : Nat → ℚ) (c m : Nat)
    (h : ∀ y x, y < m → x < c → G (y * c + x) = F y x) :
    ∑ j ∈ Finset.range (m * c), G j = ∑ y ∈ Finset.range m, ∑ x ∈ Finset.range c, F y x := by
  induction m with
  | zero => simp
  | succ m ih =>
    rw [Nat.succ_mul, Finset.sum_range_add, Finset.sum_range_succ,
      ih (fun y x hy hx => h y x (by omega) hx)]
    congr 1
    exact Finset.sum_congr rfl (fun x hx => h m x (by omega) (Finset.mem_range.mp hx))

theorem flatData_struct (sb : Shoebox) :
    sb.flatData.n0 = sb.ysize ∧ sb.flatData.n1 = sb.xsize ∧
      sb.flatData.elems.length = sb.ysize * sb.xsize := by
  unfold Shoebox.flatData
  rw [filled_loopZ]
  simp [length_accZ]

theorem flatBgrd_struct (sb : Shoebox) :
    sb.flatBgrd.n0 = sb.ysize ∧ sb.flatBgrd.n1 = sb.xsize ∧
      sb.flatBgrd.elems.length = sb.ysize * sb.xsize := by
  unfold Shoebox.flatBgrd
  rw [filled_loopZ]
  simp [length_accZ]

theorem flatMask_struct (sb : Shoebox) :
    sb.flatMask.n0 = sb.ysize ∧ sb.flatMask.n1 = sb.xsize ∧
      sb.flatMask.elems.length = sb.ysize * sb.xsize := by
  unfold Shoebox.flatMask
  rw [filled_loopZ]
  simp [length_accZ]

theorem sum_of_gets (a : Versa2 ℚ) (ny nx : Nat) (h1 : a.n1 = nx)
    (hl : a.elems.length = ny * nx) (F : Nat → Nat → ℚ)
    (h : ∀ y x, y < ny → x < nx → a.get y x = F y x) :
    a.elems.sum = ∑ y ∈ Finset.range ny, ∑ x ∈ Finset.range nx, F y x ∧
    ∑ y ∈ Finset.range ny, ∑ x ∈ Finset.range nx, a.get y x =
      ∑ y ∈ Finset.range ny, ∑ x ∈ Finset.range nx, F y x := by
  constructor
  · rw [list_sum_eq_sum_range, hl]
    apply sum_range_rows
    intro y x hy hx
    rw [← h y x hy hx, Versa2.get, h1]
  · apply Finset.sum_congr rfl
    intro y hy
    apply Finset.sum_congr rfl
    intro x hx
    exact h y x (Finset.mem_range.mp hy) (Finset.mem_range.mp hx)

theorem sum_frames_comm (g : Nat → Nat → Nat → ℚ) (nz ny nx : Nat) :
    ∑ y ∈ Finset.range ny, ∑ x ∈ Finset.range nx, ∑ z ∈ Finset.range nz, g z y x =
      ∑ z ∈ Finset.range nz, ∑ y ∈ Finset.range ny, ∑ x ∈ Finset.range nx, g z y x := by
  have h1 : ∀ y, ∑ x ∈ Finset.range nx, ∑ z ∈ Finset.range nz, g z y x =
      ∑ z ∈ Finset.range nz, ∑ x ∈ Finset.range nx, g z y x := fun y => Finset.sum_comm
  rw [Finset.sum_congr rfl (fun y _ => h1 y)]
  exact Finset.sum_comm

theorem flat_zero_frames (sb : Shoebox) (hz : sb.zsize = 0) :
    sb.flatData = Versa2.filled sb.ysize sb.xsize 0 ∧
    sb.flatBgrd = Versa2.filled sb.ysize sb.xsize 0 ∧
    sb.flatMask = Versa2.filled sb.ysize sb.xsize 0 := by
  simp [Shoebox.flatData, Shoebox.flatBgrd, Shoebox.flatMask, Versa2.loopZ, hz]

/-- C9: flattening conserves total counts. For every shoebox the sum of the
flattened data array over all `(y, x)` (and the sum of its whole element store)
is the sum of `data(z, y, x)` over all `(z, y, x)` of the shoebox, likewise for
the background; a shoebox with `zsize = 0` flattens to all-zero data,
background and mask arrays. -/
theorem flattening_conserves_counts (image_width image_height : Nat) (sbox : List Shoebox)
    (i : Nat) (hi : i < sbox.length) :
    (((Flattened2DProfileFitting.construct image_width image_height sbox).flattened.flattened_data[i]?).map
        (fun d => ∑ y ∈ Finset.range sbox[i].ysize, ∑ x ∈ Finset.range sbox[i].xsize, d.get y x) =
      some (∑ z ∈ Finset.range sbox[i].zsize, ∑ y ∈ Finset.range sbox[i].ysize,
        ∑ x ∈ Finset.range sbox[i].xsize, sbox[i].data.get z y x)) ∧
    (((Flattened2DProfileFitting.construct image_width image_height sbox).flattened.flattened_data[i]?).map
        (fun d => d.elems.sum) =
      some (∑ z ∈ Finset.range sbox[i].zsize, ∑ y ∈ Finset.range sbox[i].ysize,
        ∑ x ∈ Finset.range sbox[i].xsize, sbox[i].data.get z y x)) ∧
    (((Flattened2DProfileFitting.construct image_width image_height sbox).flattened.flattened_bgrd[i]?).map
        (fun b => ∑ y ∈ Finset.range sbox[i].ysize, ∑ x ∈ Finset.range sbox[i].xsize, b.get y x) =
      some (∑ z ∈ Finset.range sbox[i].zsize, ∑ y ∈ Finset.range sbox[i].ysize,
        ∑ x ∈ Finset.range sbox[i].xsize, sbox[i].background.get z y x)) ∧
    (((Flattened2DProfileFitting.construct image_width image_height sbox).flattened.flattened_bgrd[i]?).map
        (fun b => b.elems.sum) =
      some (∑ z ∈ Finset.range sbox[i].zsize, ∑ y ∈ Finset.range sbox[i].ysize,
        ∑ x ∈ Finset.range sbox[i].xsize, sbox[i].background.get z y x)) ∧
    (sbox[i].zsize = 0 →
      (Flattened2DProfileFitting.construct image_width image_height sbox).flattened.flattened_data[i]? =
        some (Versa2.filled sbox[i].ysize sbox[i].xsize 0) ∧
      (Flattened2DProfileFitting.construct image_width image_height sbox).flattened.flattened_bgrd[i]? =
        some (Versa2.filled sbox[i].ysize sbox[i].xsize 0) ∧
      (Flattened2DProfileFitting.construct image_width image_height sbox).flattened.flattened_mask[i]? =
        some (Versa2.filled sbox[i].ysize sbox[i].xsize 0)) := by
  simp only [Flattened2DProfileFitting.construct, flatten_data_getElem?, flatten_bgrd_getElem?,
    flatten_mask_getElem?, List.getElem?_eq_getElem hi, Option.map_some', Option.some.injEq]
  obtain ⟨_, d1, dl⟩ := flatData_struct sbox[i]
  obtain ⟨_, b1, bl⟩ := flatBgrd_struct sbox[i]
  have hd := sum_of_gets sbox[i].flatData sbox[i].ysize sbox[i].xsize d1 dl _
    (fun y x hy hx => flatData_get sbox[i] y x hy hx)
  have hb := sum_of_gets sbox[i].flatBgrd sbox[i].ysize sbox[i].xsize b1 bl _
    (fun y x hy hx => flatBgrd_get sbox[i] y x hy hx)
  rw [sum_frames_comm] at hd hb
  exact ⟨hd.2, hd.1, hb.2, hb.1, flat_zero_frames sbox[i]⟩

/-- Witness of C9 on a list of one shoebox with two frames. -/
theorem flattening_conserves_counts_witness :
    0 < [sampleShoebox].length ∧
    ((((Flattened2DProfileFitting.construct 8 8 [sampleShoebox]).flattened.flattened_data[0]?).map
        (fun d => ∑ y ∈ Finset.range sampleShoebox.ysize, ∑ x ∈ Finset.range sampleShoebox.xsize, d.get y x) =
      some (∑ z ∈ Finset.range sampleShoebox.zsize, ∑ y ∈ Finset.range sampleShoebox.ysize,
        ∑ x ∈ Finset.range sampleShoebox.xsize, sampleShoebox.data.get z y x)) ∧
    (((Flattened2DProfileFitting.construct 8 8 [sampleShoebox]).flattened.flattened_data[0]?).map
        (fun d => d.elems.sum) =
      some (∑ z ∈ Finset.range sampleShoebox.zsize, ∑ y ∈ Finset.range sampleShoebox.ysize,
        ∑ x ∈ Finset.range sampleShoebox.xsize, sampleShoebox.data.get z y x)) ∧
    (((Flattened2DProfileFitting.construct 8 8 [sampleShoebox]).flattened.flattened_bgrd[0]?).map
        (fun b => ∑ y ∈ Finset.range sampleShoebox.ysize, ∑ x ∈ Finset.range sampleShoebox.xsize, b.get y x) =
      some (∑ z ∈ Finset.range sampleShoebox.zsize, ∑ y ∈ Finset.range sampleShoebox.ysize,
        ∑ x ∈ Finset.range sampleShoebox.xsize, sampleShoebox.background.get z y x)) ∧
    (((Flattened2DProfileFitting.construct 8 8 [sampleShoebox]).flattened.flattened_bgrd[0]?).map
        (fun b => b.elems.sum) =
      some (∑ z ∈ Finset.range sampleShoebox.zsize, ∑ y ∈ Finset.range sampleShoebox.ysize,
        ∑ x ∈ Finset.range sampleShoebox.xsize, sampleShoebox.background.get z y x)) ∧
    (sampleShoebox.zsize = 0 →
      (Flattened2DProfileFitting.construct 8 8 [sampleShoebox]).flattened.flattened_data[0]? =
        some (Versa2.filled sampleShoebox.ysize sampleShoebox.xsize 0) ∧
      (Flattened2DProfileFitting.construct 8 8 [sampleShoebox]).flattened.flattened_bgrd[0]? =
        some (Versa2.filled sampleShoebox.ysize sampleShoebox.xsize 0) ∧
      (Flattened2DProfileFitting.construct 8 8 [sampleShoebox]).flattened.flattened_mask[0]? =
        some (Versa2.filled sampleShoebox.ysize sampleShoebox.xsize 0))) :=
  ⟨by decide, flattening_conserves_counts 8 8 [sampleShoebox] 0 (by decide)⟩

/-- C10: the flattening step produces one (data, background, mask) triple per
input shoebox, in input order; the `i`-th triple has the extent `(ysize, xsize)`
of the `i`-th shoebox and is the same for every input list (and image size)
whose `i`-th shoebox is the same. -/
theorem flattened_triple_per_shoebox (image_width image_height : Nat) (sbox : List Shoebox)
    (i : Nat) (hi : i < sbox.length)
    (image_width' image_height' : Nat) (sbox' : List Shoebox) (hi' : i < sbox'.length)
    (hsame : sbox'[i] = sbox[i]) :
    ((Flattened2DProfileFitting.construct image_width image_height sbox).flattened.flattened_data.length =
        sbox.length ∧
      (Flattened2DProfileFitting.construct image_width image_height sbox).flattened.flattened_bgrd.length =
        sbox.length ∧
      (Flattened2DProfileFitting.construct image_width image_height sbox).flattened.flattened_mask.length =
        sbox.length) ∧
    (((Flattened2DProfileFitting.construct image_width image_height sbox).flattened.flattened_data[i]?).map
        (fun a => (a.n0, a.n1, a.elems.length)) =
        some (sbox[i].ysize, sbox[i].xsize, sbox[i].ysize * sbox[i].xsize) ∧
      ((Flattened2DProfileFitting.construct image_width image_height sbox).flattened.flattened_bgrd[i]?).map
        (fun a => (a.n0, a.n1, a.elems.length)) =
        some (sbox[i].ysize, sbox[i].xsize, sbox[i].ysize * sbox[i].xsize) ∧
      ((Flattened2DProfileFitting.construct image_width image_height sbox).flattened.flattened_mask[i]?).map
        (fun a => (a.n0, a.n1, a.elems.length)) =
        some (sbox[i].ysize, sbox[i].xsize, sbox[i].ysize * sbox[i].xsize)) ∧
    ((Flattened2DProfileFitting.construct image_width' image_height' sbox').flattened.flattened_data[i]? =
        (Flattened2DProfileFitting.construct image_width image_height sbox).flattened.flattened_data[i]? ∧
      (Flattened2DProfileFitting.construct image_width' image_height' sbox').flattened.flattened_bgrd[i]? =
        (Flattened2DProfileFitting.construct image_width image_height sbox).flattened.flattened_bgrd[i]? ∧
      (Flattened2DProfileFitting.construct image_width' image_height' sbox').flattened.flattened_mask[i]? =
        (Flattened2DProfileFitting.construct image_width image_height sbox).flattened.flattened_mask[i]?) := by
  obtain ⟨d0, d1, dl⟩ := flatData_struct sbox[i]
  obtain ⟨b0, b1, bl⟩ := flatBgrd_struct sbox[i]
  obtain ⟨m0, m1, ml⟩ := flatMask_struct sbox[i]
  refine ⟨?_, ?_, ?_⟩
  · simp [Flattened2DProfileFitting.construct, flatten_eq_map]
  · simp only [Flattened2DProfileFitting.construct, flatten_data_getElem?, flatten_bgrd_getElem?,
      flatten_mask_getElem?, List.getElem?_eq_getElem hi, Option.map_some', d0, d1, dl, b0, b1,
      bl, m0, m1, ml, and_self]
  · simp only [Flattened2DProfileFitting.construct, flatten_data_getElem?, flatten_bgrd_getElem?,
      flatten_mask_getElem?, List.getElem?_eq_getElem hi, List.getElem?_eq_getElem hi', hsame,
      and_self]

/-- Witness of C10: the second triple is the same when the first shoebox of the
list is replaced by another one. -/
theorem flattened_triple_per_shoebox_witness :
    (1 < [sampleShoebox, unitShoebox].length ∧ 1 < [mismatchedShoebox, unitShoebox].length ∧
      [mismatchedShoebox, unitShoebox][1] = [sampleShoebox, unitShoebox][1]) ∧
    (((Flattened2DProfileFitting.construct 8 8 [sampleShoebox, unitShoebox]).flattened.flattened_data.length =
        [sampleShoebox, unitShoebox].length ∧
      (Flattened2DProfileFitting.construct 8 8 [sampleShoebox, unitShoebox]).flattened.flattened_bgrd.length =
        [sampleShoebox, unitShoebox].length ∧
      (Flattened2DProfileFitting.construct 8 8 [sampleShoebox, unitShoebox]).flattened.flattened_mask.length =
        [sampleShoebox, unitShoebox].length) ∧
    (((Flattened2DProfileFitting.construct 8 8 [sampleShoebox, unitShoebox]).flattened.flattened_data[1]?).map
        (fun a => (a.n0, a.n1, a.elems.length)) =
        some (unitShoebox.ysize, unitShoebox.xsize, unitShoebox.ysize * unitShoebox.xsize) ∧
      ((Flattened2DProfileFitting.construct 8 8 [sampleShoebox, unitShoebox]).flattened.flattened_bgrd[1]?).map
        (fun a => (a.n0, a.n1, a.elems.length)) =
        some (unitShoebox.ysize, unitShoebox.xsize, unitShoebox.ysize * unitShoebox.xsize) ∧
      ((Flattened2DProfileFitting.construct 8 8 [sampleShoebox, unitShoebox]).flattened.flattened_mask[1]?).map
        (fun a => (a.n0, a.n1, a.elems.length)) =
        some (unitShoebox.ysize, unitShoebox.xsize, unitShoebox.ysize * unitShoebox.xsize)) ∧
    ((Flattened2DProfileFitting.construct 4 4 [mismatchedShoebox, unitShoebox]).flattened.flattened_data[1]? =
        (Flattened2DProfileFitting.construct 8 8 [sampleShoebox, unitShoebox]).flattened.flattened_data[1]? ∧
      (Flattened2DProfileFitting.construct 4 4 [mismatchedShoebox, unitShoebox]).flattened.flattened_bgrd[1]? =
        (Flattened2DProfileFitting.construct 8 8 [sampleShoebox, unitShoebox]).flattened.flattened_bgrd[1]? ∧
      (Flattened2DProfileFitting.construct 4 4 [mismatchedShoebox, unitShoebox]).flattened.flattened_mask[1]? =
        (Flattened2DProfileFitting.construct 8 8 [sampleShoebox, unitShoebox]).flattened.flattened_mask[1]?)) :=
  ⟨⟨by decide, by decide, rfl⟩,
    flattened_triple_per_shoebox 8 8 [sampleShoebox, unitShoebox] 1 (by decide) 4 4
      [mismatchedShoebox, unitShoebox] (by decide) rfl⟩

/-- C7 as stated fails: the data array of `mismatchedShoebox` has extents
`(2, 2, 2)` while its bounding box declares `(1, 1, 1)` and its background and
mask arrays have extents `(1, 1, 1)`; construction over it yields the flattened
arrays all the same, and the element `data(0, 0, 0) = 7` has been read and
accumulated into the flattened data. -/
theorem mismatched_shoebox_is_flattened :
    mismatchedShoebox.is_consistent = false ∧
    mismatchedShoebox.data.extent ≠ mismatchedShoebox.background.extent ∧
    mismatchedShoebox.data.get 0 0 0 = 7 ∧
    (Flattened2DProfileFitting.construct 8 8 [mismatchedShoebox]).flattened.flattened_data =
      [⟨1, 1, [7]⟩] := by
  refine ⟨by decide, by decide, ?_, ?_⟩
  · simp [Versa3.get, mismatchedShoebox]
  · simp [Flattened2DProfileFitting.construct, flatten, flattenOne, flattenZ, flattenY,
      flattenX, flattenStep, modifyAt, Versa2.update, Versa2.filled, Versa3.get,
      mismatchedShoebox, List.range_succ]

theorem holds_box_lt {α : Type} (a : Versa3 α) (nz ny nx z y x : Nat)
    (h : a.holds_box nz ny nx = true) (hz : z < nz) (hy : y < ny) (hx : x < nx) :
    (z * a.n1 + y) * a.n2 + x < a.elems.length := by
  unfold Versa3.holds_box at h
  rw [List.all_eq_true] at h
  have h1 := h z (List.mem_range.mpr hz)
  rw [List.all_eq_true] at h1
  have h2 := h1 y (List.mem_range.mpr hy)
  rw [List.all_eq_true] at h2
  have h3 := h2 x (List.mem_range.mpr hx)
  exact of_decide_eq_true h3

theorem get_of_holds_box {α : Type} [Zero α] (a : Versa3 α) (nz ny nx z y x : Nat)
    (h : a.holds_box nz ny nx = true) (hz : z < nz) (hy : y < ny) (hx : x < nx) :
    a.elems[(z * a.n1 + y) * a.n2 + x]? = some (a.get z y x) := by
  have hlt := holds_box_lt a nz ny nx z y x h hz hy hx
  simp [Versa3.get, List.getD_eq_getElem?_getD, List.getElem?_eq_getElem hlt]

theorem dimensions_disagree (bbox : Int6) (data : Versa3 ℚ) (background : Option (Versa3 ℚ))
    (mask : Versa3 Bool)
    (h : data.extent ≠ (bbox.zsize, bbox.ysize, bbox.xsize) ∨
      mask.extent ≠ (bbox.zsize, bbox.ysize, bbox.xsize) ∨
      ∃ b, background = some b ∧ b.extent ≠ (bbox.zsize, bbox.ysize, bbox.xsize)) :
    Forward.dimensions_agree bbox data background mask = false := by
  unfold Forward.dimensions_agree
  rcases h with h | h | ⟨b, hb, h⟩
  · simp [h]
  · simp [h]
  · subst hb
    simp [h]

/-- A construction with agreeing extents is not refused: the checked constructor
returns the accumulated grids. -/
theorem checked_construct_of_agree {Beam Detector Goniometer Scan : Type}
    (spec : TransformSpec Beam Detector Goniometer Scan)
    (index : Nat → Nat → Option (Nat × Nat))
    (mapper : MapFramesForward) (mass : ℚ → ℚ → Int → Nat → ℚ) (phi zeta : ℚ)
    (bbox : Int6) (data : Versa3 ℚ) (background : Option (Versa3 ℚ)) (mask : Versa3 Bool)
    (h : Forward.dimensions_agree bbox data background mask = true) :
    Forward.checked_construct spec index mapper mass phi zeta bbox data background mask =
      Except.ok
        (Forward.construct spec index mapper mass phi zeta bbox data mask,
         background.map
           (fun b => (Forward.construct spec index mapper mass phi zeta bbox b mask).profile_)) := by
  unfold Forward.checked_construct
  rw [if_pos h]

/-- C7 amended: construction of a `Forward` transform over observed-data,
background or mask arrays whose extents disagree with the bounding box (hence
also whenever they disagree with each other) fails fast with the reported
failure `DimensionMismatch` and processes nothing. The constructor of
`Flattened2DProfileFitting` compares no extents: a shoebox whose arrays each
hold every element of the declared box, whether or not their extents agree, is
flattened in full. Its three arrays have extent `(ysize, xsize)`, and at every
`(y, x)` of the extent every `(z, y, x)` read by lines 41-43 is a stored
element, the data and background values are the sums over the frames and the
mask value is the bitwise OR over the frames. -/
theorem construction_over_mismatched_extents (image_width image_height : Nat)
    (sbox : List Shoebox) (i : Nat) (hi : i < sbox.length)
    (hstore : sbox[i].reads_in_store = true) (y x : Nat)
    (hy : y < sbox[i].ysize) (hx : x < sbox[i].xsize)
    {Beam Detector Goniometer Scan : Type}
    (spec : TransformSpec Beam Detector Goniometer Scan)
    (index : Nat → Nat → Option (Nat × Nat))
    (mapper : MapFramesForward) (mass : ℚ → ℚ → Int → Nat → ℚ) (phi zeta : ℚ)
    (bbox : Int6) (data : Versa3 ℚ) (background : Option (Versa3 ℚ)) (mask : Versa3 Bool)
    (hmismatch : data.extent ≠ (bbox.zsize, bbox.ysize, bbox.xsize) ∨
      mask.extent ≠ (bbox.zsize, bbox.ysize, bbox.xsize) ∨
      ∃ b, background = some b ∧ b.extent ≠ (bbox.zsize, bbox.ysize, bbox.xsize)) :
    Forward.checked_construct spec index mapper mass phi zeta bbox data background mask =
      Except.error TransformError.DimensionMismatch ∧
    (∀ z, z < sbox[i].zsize →
      sbox[i].data.elems[(z * sbox[i].data.n1 + y) * sbox[i].data.n2 + x]? =
        some (sbox[i].data.get z y x) ∧
      sbox[i].background.elems[(z * sbox[i].background.n1 + y) * sbox[i].background.n2 + x]? =
        some (sbox[i].background.get z y x) ∧
      sbox[i].mask.elems[(z * sbox[i].mask.n1 + y) * sbox[i].mask.n2 + x]? =
        some (sbox[i].mask.get z y x)) ∧
    ((Flattened2DProfileFitting.construct image_width image_height sbox).flattened.flattened_data[i]?).map
        (fun d => (d.n0, d.n1, d.get y x)) =
      some (sbox[i].ysize, sbox[i].xsize,
        ∑ z ∈ Finset.range sbox[i].zsize, sbox[i].data.get z y x) ∧
    ((Flattened2DProfileFitting.construct image_width image_height sbox).flattened.flattened_bgrd[i]?).map
        (fun b => (b.n0, b.n1, b.get y x)) =
      some (sbox[i].ysize, sbox[i].xsize,
        ∑ z ∈ Finset.range sbox[i].zsize, sbox[i].background.get z y x) ∧
    ((Flattened2DProfileFitting.construct image_width image_height sbox).flattened.flattened_mask[i]?).map
        (fun m => (m.n0, m.n1, m.get y x)) =
      some (sbox[i].ysize, sbox[i].xsize,
        (List.range sbox[i].zsize).foldl
          (fun acc z => Int.lor acc (sbox[i].mask.get z y x)) 0) := by
  have hs : (sbox[i].data.holds_box sbox[i].zsize sbox[i].ysize sbox[i].xsize = true ∧
      sbox[i].background.holds_box sbox[i].zsize sbox[i].ysize sbox[i].xsize = true) ∧
      sbox[i].mask.holds_box sbox[i].zsize sbox[i].ysize sbox[i].xsize = true := by
    simpa [Shoebox.reads_in_store, Bool.and_eq_true] using hstore
  obtain ⟨d0, d1, _⟩ := flatData_struct sbox[i]
  obtain ⟨b0, b1, _⟩ := flatBgrd_struct sbox[i]
  obtain ⟨m0, m1, _⟩ := flatMask_struct sbox[i]
  refine ⟨?_, ?_, ?_, ?_, ?_⟩
  · unfold Forward.checked_construct
    rw [dimensions_disagree bbox data background mask hmismatch]
    rfl
  · intro z hz
    exact ⟨get_of_holds_box _ _ _ _ z y x hs.1.1 hz hy hx,
      get_of_holds_box _ _ _ _ z y x hs.1.2 hz hy hx,
      get_of_holds_box _ _ _ _ z y x hs.2 hz hy hx⟩
  · simp only [Flattened2DProfileFitting.construct, flatten_data_getElem?,
      List.getElem?_eq_getElem hi, Option.map_some', d0, d1, flatData_get _ _ _ hy hx]
  · simp only [Flattened2DProfileFitting.construct, flatten_bgrd_getElem?,
      List.getElem?_eq_getElem hi, Option.map_some', b0, b1, flatBgrd_get _ _ _ hy hx]
  · simp only [Flattened2DProfileFitting.construct, flatten_mask_getElem?,
      List.getElem?_eq_getElem hi, Option.map_some', m0, m1, flatMask_get _ _ _ hy hx]

/-- Witness of the amended C7: the shoebox that declares one element and has a
data array of extents `(2, 2, 2)`, and a `Forward` construction over a data
array of extents `(2, 2, 2)` in a bounding box of extents `(2, 1, 2)`. -/
theorem construction_over_mismatched_extents_witness :
    (0 < [mismatchedShoebox].length ∧ mismatchedShoebox.reads_in_store = true ∧
      0 < mismatchedShoebox.ysize ∧ 0 < mismatchedShoebox.xsize ∧
      mismatchedShoebox.is_consistent = false ∧
      mismatchedShoebox.data.extent ≠ (sampleBox.zsize, sampleBox.ysize, sampleBox.xsize)) ∧
    (Forward.checked_construct sampleSpec sampleIndex sampleMapper sampleMass 0 1 sampleBox
        mismatchedShoebox.data none sampleMask =
      Except.error TransformError.DimensionMismatch ∧
    (∀ z, z < mismatchedShoebox.zsize →
      mismatchedShoebox.data.elems[(z * mismatchedShoebox.data.n1 + 0) * mismatchedShoebox.data.n2 + 0]? =
        some (mismatchedShoebox.data.get z 0 0) ∧
      mismatchedShoebox.background.elems[(z * mismatchedShoebox.background.n1 + 0) * mismatchedShoebox.background.n2 + 0]? =
        some (mismatchedShoebox.background.get z 0 0) ∧
      mismatchedShoebox.mask.elems[(z * mismatchedShoebox.mask.n1 + 0) * mismatchedShoebox.mask.n2 + 0]? =
        some (mismatchedShoebox.mask.get z 0 0)) ∧
    ((Flattened2DProfileFitting.construct 8 8 [mismatchedShoebox]).flattened.flattened_data[0]?).map
        (fun d => (d.n0, d.n1, d.get 0 0)) =
      some (mismatchedShoebox.ysize, mismatchedShoebox.xsize,
        ∑ z ∈ Finset.range mismatchedShoebox.zsize, mismatchedShoebox.data.get z 0 0) ∧
    ((Flattened2DProfileFitting.construct 8 8 [mismatchedShoebox]).flattened.flattened_bgrd[0]?).map
        (fun b => (b.n0, b.n1, b.get 0 0)) =
      some (mismatchedShoebox.ysize, mismatchedShoebox.xsize,
        ∑ z ∈ Finset.range mismatchedShoebox.zsize, mismatchedShoebox.background.get z 0 0) ∧
    ((Flattened2DProfileFitting.construct 8 8 [mismatchedShoebox]).flattened.flattened_mask[0]?).map
        (fun m => (m.n0, m.n1, m.get 0 0)) =
      some (mismatchedShoebox.ysize, mismatchedShoebox.xsize,
        (List.range mismatchedShoebox.zsize).foldl
          (fun acc z => Int.lor acc (mismatchedShoebox.mask.get z 0 0)) 0)) :=
  ⟨⟨by decide, by decide, by decide, by decide, by decide, by decide⟩,
    construction_over_mismatched_extents 8 8 [mismatchedShoebox] 0 (by decide) (by decide) 0 0
      (by decide) (by decide) sampleSpec sampleIndex sampleMapper sampleMass 0 1 sampleBox
      mismatchedShoebox.data none sampleMask (Or.inl (by decide))⟩

/-! ## TransformSpec and the forward frame mapper -/

/-- C6: for every `TransformSpec` built with the grid half-size `h` as last
constructor argument, directly or through `init_forward_from_experiment`,
`grid_size()` is `2 * h + 1` on every axis, which is odd, and `grid_centre()` is
`h` on every axis. -/
theorem transform_spec_grid_size_centre {Beam Detector Goniometer Scan : Type}
    (beam : Beam) (detector : Detector) (goniometer : Goniometer) (scan : Scan)
    (sigma_b sigma_m n_sigma : ℚ) (h : Nat) :
    (TransformSpec.mk beam detector goniometer scan sigma_b sigma_m n_sigma h).grid_size =
      (2 * h + 1, 2 * h + 1, 2 * h + 1) ∧
    (TransformSpec.mk beam detector goniometer scan sigma_b sigma_m n_sigma h).grid_centre =
      (h, h, h) ∧
    (init_forward_from_experiment (Experiment.mk beam detector goniometer scan)
      sigma_b sigma_m n_sigma h).grid_size = (2 * h + 1, 2 * h + 1, 2 * h + 1) ∧
    (init_forward_from_experiment (Experiment.mk beam detector goniometer scan)
      sigma_b sigma_m n_sigma h).grid_centre = (h, h, h) ∧
    Odd (2 * h + 1) :=
  ⟨rfl, rfl, rfl, rfl, ⟨h, rfl⟩⟩

theorem row_length (self : MapFramesForward) (mass : Nat → ℚ) :
    (self.row mass).length = self.grid_size_e3.toNat := by
  unfold MapFramesForward.row
  simp only
  split <;> simp

theorem row_sum_of_total_ne_zero (self : MapFramesForward) (mass : Nat → ℚ)
    (h : ((List.range self.grid_size_e3.toNat).map mass).sum ≠ 0) :
    (self.row mass).sum = 1 := by
  unfold MapFramesForward.row
  simp only
  rw [if_neg h]
  have hdiv : (fun m : ℚ => m / ((List.range self.grid_size_e3.toNat).map mass).sum) =
      (fun m : ℚ => m * (((List.range self.grid_size_e3.toNat).map mass).sum)⁻¹) := by
    funext m
    rw [div_eq_mul_inv]
  rw [hdiv, List.sum_map_mul_right, List.map_id', mul_inv_cancel₀ h]

theorem row_of_total_eq_zero (self : MapFramesForward) (mass : Nat → ℚ)
    (h : ((List.range self.grid_size_e3.toNat).map mass).sum = 0) :
    self.row mass = List.replicate self.grid_size_e3.toNat 0 := by
  unfold MapFramesForward.row
  simp only
  rw [if_pos h]

theorem total_eq_zero_of_outside (n : Nat) (mass : Nat → ℚ) (h : ∀ v, v < n → mass v = 0) :
    ((List.range n).map mass).sum = 0 := by
  apply List.sum_eq_zero
  intro t ht
  simp only [List.mem_map, List.mem_range] at ht
  obtain ⟨v, hv, rfl⟩ := ht
  exact h v hv

theorem call_getElem? (self : MapFramesForward) (mass : ℚ → ℚ → Int → Nat → ℚ)
    (frames : Int × Int) (phi zeta : ℚ) (k : Nat) (hk : k < (frames.2 - frames.1).toNat) :
    (self.call mass frames phi zeta)[k]? =
      some (self.row (mass phi zeta (frames.1 + (k : Int)))) := by
  unfold MapFramesForward.call
  rw [List.getElem?_map, List.getElem?_range hk]
  rfl

theorem call_getD_row (self : MapFramesForward) (mass : ℚ → ℚ → Int → Nat → ℚ)
    (frames : Int × Int) (phi zeta : ℚ) (k : Nat) (hk : k < (frames.2 - frames.1).toNat) :
    (self.call mass frames phi zeta).getD k [] =
      self.row (mass phi zeta (frames.1 + (k : Int))) := by
  rw [List.getD_eq_getElem?_getD, call_getElem? self mass frames phi zeta k hk]
  rfl

theorem mass_eq_zero_of_outside (self : MapFramesForward) (cdf : ℚ → ℚ) (phi zeta : ℚ)
    (j : Int) (v : Nat)
    (hout : (self.frame_extent j).2 ≤ (self.cutoff phi zeta).1 ∨
      (self.cutoff phi zeta).2 ≤ (self.frame_extent j).1) :
    self.mass cdf phi zeta j v = 0 := by
  unfold MapFramesForward.mass
  simp only
  rw [if_neg]
  intro hlt
  have h1 : (self.cutoff phi zeta).1 ≤
      max (max (self.frame_extent j).1 (self.plane_extent phi zeta v).1)
        (self.cutoff phi zeta).1 := le_max_right _ _
  have h2 : (self.frame_extent j).1 ≤
      max (max (self.frame_extent j).1 (self.plane_extent phi zeta v).1)
        (self.cutoff phi zeta).1 := le_trans (le_max_left _ _) (le_max_left _ _)
  have h3 : min (min (self.frame_extent j).2 (self.plane_extent phi zeta v).2)
      (self.cutoff phi zeta).2 ≤ (self.frame_extent j).2 :=
    le_trans (min_le_left _ _) (min_le_left _ _)
  have h4 : min (min (self.frame_extent j).2 (self.plane_extent phi zeta v).2)
      (self.cutoff phi zeta).2 ≤ (self.cutoff phi zeta).2 := min_le_right _ _
  rcases hout with h | h
  · linarith
  · linarith

/-- C5: for every frame processed by the forward frame mapper, the weights of
the frame over the planes along e3 sum to 1 when the frame has non-zero total
weight, and are all exactly zero, with sum 0, when the angular extent of the
frame lies entirely outside the `n_sigma` cutoff around the rotation angle of
the reflection; so every row of the z-fraction matrix sums to 1 or to 0. -/
theorem frame_weights_sum_to_one_or_zero (self : MapFramesForward) (cdf : ℚ → ℚ)
    (frames : Int × Int) (phi zeta : ℚ) (k : Nat)
    (hk : k < (frames.2 - frames.1).toNat) :
    (self.apply cdf frames phi zeta).length = (frames.2 - frames.1).toNat ∧
    ((self.apply cdf frames phi zeta).getD k []).length = self.grid_size_e3.toNat ∧
    (((List.range self.grid_size_e3.toNat).map
        (self.mass cdf phi zeta (frames.1 + (k : Int)))).sum ≠ 0 →
      ((self.apply cdf frames phi zeta).getD k []).sum = 1) ∧
    (((self.frame_extent (frames.1 + (k : Int))).2 ≤ (self.cutoff phi zeta).1 ∨
        (self.cutoff phi zeta).2 ≤ (self.frame_extent (frames.1 + (k : Int))).1) →
      ((self.apply cdf frames phi zeta).getD k []).sum = 0 ∧
      ∀ w ∈ (self.apply cdf frames phi zeta).getD k [], w = 0) ∧
    (((self.apply cdf frames phi zeta).getD k []).sum = 1 ∨
      ((self.apply cdf frames phi zeta).getD k []).sum = 0) := by
  unfold MapFramesForward.apply
  rw [call_getD_row self (self.mass cdf) frames phi zeta k hk]
  have hzero : ((List.range self.grid_size_e3.toNat).map
      (self.mass cdf phi zeta (frames.1 + (k : Int)))).sum = 0 →
      (self.row (self.mass cdf phi zeta (frames.1 + (k : Int)))).sum = 0 ∧
      ∀ w ∈ self.row (self.mass cdf phi zeta (frames.1 + (k : Int))), w = 0 := by
    intro h0
    rw [row_of_total_eq_zero self _ h0]
    constructor
    · simp
    · intro w hw
      exact (List.mem_replicate.mp hw).2
  refine ⟨by unfold MapFramesForward.call; rw [List.length_map, List.length_range],
    row_length self _, row_sum_of_total_ne_zero self _, ?_, ?_⟩
  · intro hout
    exact hzero (total_eq_zero_of_outside _ _
      (fun v _ => mass_eq_zero_of_outside self cdf phi zeta _ v hout))
  · by_cases h0 : ((List.range self.grid_size_e3.toNat).map
        (self.mass cdf phi zeta (frames.1 + (k : Int)))).sum = 0
    · exact Or.inr (hzero h0).1
    · exact Or.inl (row_sum_of_total_ne_zero self _ h0)

/-- The frame `-1` of the sample mapper lies outside the cutoff around
`phi = 3 / 20`: it ends at the angle 0, where the cutoff begins. -/
theorem sample_frame_outside :
    (sampleMapper.frame_extent (-1)).2 ≤ (sampleMapper.cutoff (3 / 20) 1).1 := by
  simp [MapFramesForward.frame_extent, MapFramesForward.cutoff, MapFramesForward.sigma,
    sampleMapper]
  norm_num

theorem sample_half_size : sampleMapper.grid_half_size = 1 := by decide

theorem sample_step_size : sampleMapper.step_size = 3 / 20 := by
  rw [MapFramesForward.step_size, sample_half_size]
  norm_num [sampleMapper]

theorem sample_sigma : sampleMapper.sigma 1 = 1 / 20 := by
  norm_num [MapFramesForward.sigma, sampleMapper]

theorem sample_cutoff : sampleMapper.cutoff (3 / 20) 1 = (0, 3 / 10) := by
  rw [MapFramesForward.cutoff, sample_sigma]
  norm_num [sampleMapper]

theorem sample_frame_extent : sampleMapper.frame_extent 0 = (0, 1 / 10) := by
  norm_num [MapFramesForward.frame_extent, sampleMapper]

theorem sample_plane_extent :
    sampleMapper.plane_extent (3 / 20) 1 0 = (-3 / 40, 3 / 40) ∧
    sampleMapper.plane_extent (3 / 20) 1 1 = (3 / 40, 9 / 40) ∧
    sampleMapper.plane_extent (3 / 20) 1 2 = (9 / 40, 3 / 8) := by
  refine ⟨?_, ?_, ?_⟩ <;>
  · rw [MapFramesForward.plane_extent, sample_half_size, sample_step_size]
    norm_num [min_def, max_def]

/-- The masses of frame 0 of the sample mapper in the three planes. -/
theorem sample_masses :
    sampleMapper.mass sampleCdf (3 / 20) 1 0 0 = 1 / 4 ∧
    sampleMapper.mass sampleCdf (3 / 20) 1 0 1 = 1 / 12 ∧
    sampleMapper.mass sampleCdf (3 / 20) 1 0 2 = 0 := by
  obtain ⟨p0, p1, p2⟩ := sample_plane_extent
  refine ⟨?_, ?_, ?_⟩
  · rw [MapFramesForward.mass, sample_frame_extent, p0, sample_cutoff, sample_sigma]
    norm_num [min_def, max_def, sampleCdf]
  · rw [MapFramesForward.mass, sample_frame_extent, p1, sample_cutoff, sample_sigma]
    norm_num [min_def, max_def, sampleCdf]
  · rw [MapFramesForward.mass, sample_frame_extent, p2, sample_cutoff, sample_sigma]
    norm_num [min_def, max_def, sampleCdf]

/-- Witness of C5: frame 0 of the sample mapper has non-zero total weight and
its weights sum to 1; frame `-1` ends where the cutoff around `phi = 3 / 20`
begins and its weights sum to 0. -/
theorem frame_weights_sum_to_one_or_zero_witness :
    (0 < (((0 : Int), (1 : Int)).2 - ((0 : Int), (1 : Int)).1).toNat ∧
      0 < (((-1 : Int), (0 : Int)).2 - ((-1 : Int), (0 : Int)).1).toNat ∧
      ((List.range sampleMapper.grid_size_e3.toNat).map
        (sampleMapper.mass sampleCdf (3 / 20) 1
          (((0 : Int), (1 : Int)).1 + ((0 : Nat) : Int)))).sum ≠ 0 ∧
      (sampleMapper.frame_extent (((-1 : Int), (0 : Int)).1 + ((0 : Nat) : Int))).2 ≤
        (sampleMapper.cutoff (3 / 20) 1).1) ∧
    ((sampleMapper.apply sampleCdf (0, 1) (3 / 20) 1).getD 0 []).sum = 1 ∧
    (((sampleMapper.apply sampleCdf (-1, 0) (3 / 20) 1).getD 0 []).sum = 0 ∧
      ∀ w ∈ (sampleMapper.apply sampleCdf (-1, 0) (3 / 20) 1).getD 0 [], w = 0) :=
  have htotal : ((List.range sampleMapper.grid_size_e3.toNat).map
      (sampleMapper.mass sampleCdf (3 / 20) 1
        (((0 : Int), (1 : Int)).1 + ((0 : Nat) : Int)))).sum ≠ 0 := by
    obtain ⟨h0, h1, h2⟩ := sample_masses
    have h3 : sampleMapper.grid_size_e3.toNat = 3 := by decide
    have h4 : ((0 : Int), (1 : Int)).1 + ((0 : Nat) : Int) = 0 := by decide
    rw [h3, h4]
    simp only [List.range_succ, List.range_zero, List.nil_append, List.cons_append,
      List.map_cons, List.map_nil, List.sum_cons, List.sum_nil, h0, h1, h2]
    norm_num
  have hout : (sampleMapper.frame_extent (((-1 : Int), (0 : Int)).1 + ((0 : Nat) : Int))).2 ≤
      (sampleMapper.cutoff (3 / 20) 1).1 := by
    have h4 : ((-1 : Int), (0 : Int)).1 + ((0 : Nat) : Int) = -1 := by decide
    rw [h4]
    exact sample_frame_outside
  ⟨⟨by decide, by decide, htotal, hout⟩,
    (frame_weights_sum_to_one_or_zero sampleMapper sampleCdf (0, 1) (3 / 20) 1 0
      (by decide)).2.2.1 htotal,
    (frame_weights_sum_to_one_or_zero sampleMapper sampleCdf (-1, 0) (3 / 20) 1 0
      (by decide)).2.2.2.1 (Or.inl hout)⟩

/-- The z-fraction row of frame 0 of the sample mapper for a reflection at
`phi = 3 / 20`: the masses `1 / 4`, `1 / 12` and `0`, divided by their total. -/
theorem sample_apply_value :
    sampleMapper.apply sampleCdf (0, 1) (3 / 20) 1 = [[3 / 4, 1 / 4, 0]] := by
  obtain ⟨h0, h1, h2⟩ := sample_masses
  have h3 : sampleMapper.grid_size_e3.toNat = 3 := by decide
  simp only [MapFramesForward.apply, MapFramesForward.call, MapFramesForward.row, h3]
  simp [List.range_succ, h0, h1, h2]
  norm_num

/-- The matrix of weights for the masses `sampleMass` on the frames `-1, 0, 1`:
the frame without mass has a zero row, the other rows are normalised. -/
theorem sample_call_value :
    sampleMapper.call sampleMass (-1, 2) 0 1 =
      [[0, 0, 0], [1 / 4, 1 / 2, 1 / 4], [1 / 4, 1 / 2, 1 / 4]] := by
  simp [MapFramesForward.call, MapFramesForward.row, sampleMapper, sampleMass, List.range_succ]
  norm_num

/-! ## The Forward transform -/

theorem sum_modifyAt_add (l : List ℚ) (k : Nat) (c : ℚ) (hk : k < l.length) :
    (modifyAt 0 l k (fun v => v + c)).sum = l.sum + c := by
  induction l generalizing k with
  | nil => simp at hk
  | cons a l ih =>
    cases k with
    | zero =>
      simp [modifyAt]
      ring
    | succ k =>
      have hk' : k < l.length := by simpa using hk
      have := ih k hk'
      simp only [modifyAt] at this
      simp only [modifyAt, List.getD_cons_succ, List.set_cons_succ, List.sum_cons, this]
      ring

theorem foldl_sum (L : Nat) (step : List ℚ → Nat → List ℚ) (c : Nat → ℚ) (n : Nat)
    (hstep : ∀ g t, g.length = L → t < n →
      (step g t).length = L ∧ (step g t).sum = g.sum + c t)
    (g : List ℚ) (hg : g.length = L) :
    ((List.range n).foldl step g).length = L ∧
      ((List.range n).foldl step g).sum = g.sum + ∑ t ∈ Finset.range n, c t := by
  induction n with
  | zero => simp [hg]
  | succ n ih =>
    obtain ⟨h1, h2⟩ := ih (fun g t hg ht => hstep g t hg (by omega))
    obtain ⟨h3, h4⟩ := hstep _ n h1 (by omega)
    simp only [List.range_succ, List.foldl_append, List.foldl_cons, List.foldl_nil]
    refine ⟨h3, ?_⟩
    rw [h4, h2, Finset.sum_range_succ, add_assoc]

theorem scatter_sum (gs e1 e2 : Nat) (value : ℚ) (w : List ℚ) (g : List ℚ)
    (h1 : e1 < gs) (h2 : e2 < gs) (hg : g.length = gs * gs * gs) :
    (Forward.scatter gs e1 e2 value w g).length = gs * gs * gs ∧
      (Forward.scatter gs e1 e2 value w g).sum =
        g.sum + value * ∑ e3 ∈ Finset.range gs, w.getD e3 0 := by
  unfold Forward.scatter
  rw [Finset.mul_sum]
  apply foldl_sum (gs * gs * gs) _ (fun e3 => value * w.getD e3 0) gs _ g hg
  intro g' e3 hg' h3
  by_cases hw : w.getD e3 0 ≠ 0
  · rw [if_pos hw]
    refine ⟨by rw [length_modifyAt, hg'], ?_⟩
    apply sum_modifyAt_add
    rw [hg']
    exact index_lt (gs * gs) gs _ e3 (index_lt gs gs e1 e2 h1 h2) h3
  · rw [if_neg hw]
    have h0 : w.getD e3 0 = 0 := by
      by_contra hne
      exact hw hne
    refine ⟨hg', ?_⟩
    show g'.sum = g'.sum + value * w.getD e3 0
    rw [h0, mul_zero, add_zero]

theorem getD_eq_zero_of_any_false (w : List ℚ) (h : ¬ (w.any (fun t => decide (t ≠ 0)) = true))
    (e3 : Nat) : w.getD e3 0 = 0 := by
  by_cases hlt : e3 < w.length
  · by_contra hne
    apply h
    rw [List.any_eq_true]
    refine ⟨w[e3], List.getElem_mem hlt, ?_⟩
    have : w.getD e3 0 = w[e3] := by
      simp [List.getD_eq_getElem?_getD, List.getElem?_eq_getElem hlt]
    rw [this] at hne
    simpa using hne
  · simp [List.getD_eq_getElem?_getD, List.getElem?_eq_none (by omega : w.length ≤ e3)]

theorem pixel_sum (gs : Nat) (index : Nat → Nat → Option (Nat × Nat)) (data : Versa3 ℚ)
    (mask : Versa3 Bool) (w : List ℚ) (z y x : Nat) (g : List ℚ)
    (hmask : mask.getB z y x = true)
    (hcell : ∃ e1 e2, index y x = some (e1, e2) ∧ e1 < gs ∧ e2 < gs)
    (hg : g.length = gs * gs * gs) :
    (Forward.pixel gs index data mask w z y g x).length = gs * gs * gs ∧
      (Forward.pixel gs index data mask w z y g x).sum =
        g.sum + data.get z y x * ∑ e3 ∈ Finset.range gs, w.getD e3 0 := by
  obtain ⟨e1, e2, hidx, h1, h2⟩ := hcell
  unfold Forward.pixel
  rw [if_pos hmask, hidx]
  simp only
  by_cases hany : w.any (fun t => decide (t ≠ 0)) = true
  · rw [if_pos hany]
    exact scatter_sum gs e1 e2 _ w g h1 h2 hg
  · rw [if_neg hany]
    refine ⟨hg, ?_⟩
    have : ∑ e3 ∈ Finset.range gs, w.getD e3 0 = 0 :=
      Finset.sum_eq_zero (fun e3 _ => getD_eq_zero_of_any_false w hany e3)
    rw [this, mul_zero, add_zero]

theorem frame_sum (gs : Nat) (index : Nat → Nat → Option (Nat × Nat)) (bbox : Int6)
    (data : Versa3 ℚ) (mask : Versa3 Bool) (zfraction : List (List ℚ)) (g : List ℚ) (z : Nat)
    (hmask : ∀ y x, y < bbox.ysize → x < bbox.xsize → mask.getB z y x = true)
    (hcell : ∀ y x, y < bbox.ysize → x < bbox.xsize →
      ∃ e1 e2, index y x = some (e1, e2) ∧ e1 < gs ∧ e2 < gs)
    (hrow : ∑ e3 ∈ Finset.range gs, (zfraction.getD z []).getD e3 0 = 1)
    (hg : g.length = gs * gs * gs) :
    (Forward.frame gs index bbox data mask zfraction g z).length = gs * gs * gs ∧
      (Forward.frame gs index bbox data mask zfraction g z).sum =
        g.sum + ∑ y ∈ Finset.range bbox.ysize, ∑ x ∈ Finset.range bbox.xsize,
          data.get z y x := by
  unfold Forward.frame
  apply foldl_sum (gs * gs * gs) _
    (fun y => ∑ x ∈ Finset.range bbox.xsize, data.get z y x) bbox.ysize _ g hg
  intro g' y hg' hy
  apply foldl_sum (gs * gs * gs) _ (fun x => data.get z y x) bbox.xsize _ g' hg'
  intro g'' x hg'' hx
  have := pixel_sum gs index data mask (zfraction.getD z []) z y x g''
    (hmask y x hy hx) (hcell y x hy hx) hg''
  rw [hrow, mul_one] at this
  exact this

theorem zfraction_row_sum (mapper : MapFramesForward) (mass : ℚ → ℚ → Int → Nat → ℚ)
    (phi zeta : ℚ) (bbox : Int6) (gs z : Nat) (hplanes : mapper.grid_size_e3.toNat = gs)
    (hz : z < bbox.zsize)
    (hne : ((List.range mapper.grid_size_e3.toNat).map
      (mass phi zeta (bbox.z0 + (z : Int)))).sum ≠ 0) :
    ∑ e3 ∈ Finset.range gs,
      ((mapper.call mass (bbox.z0, bbox.z1) phi zeta).getD z []).getD e3 0 = 1 := by
  have hrow : (mapper.call mass (bbox.z0, bbox.z1) phi zeta).getD z [] =
      mapper.row (mass phi zeta (bbox.z0 + (z : Int))) := by
    rw [List.getD_eq_getElem?_getD, call_getElem? mapper mass (bbox.z0, bbox.z1) phi zeta z hz]
    rfl
  rw [hrow, ← hplanes, ← row_length mapper (mass phi zeta (bbox.z0 + (z : Int))),
    ← list_sum_eq_sum_range]
  exact row_sum_of_total_ne_zero mapper _ hne

/-- C4: for a reflection fully contained within the profile grid (every pixel
of the bounding box has a grid cell) and within the angular coverage (every
frame of the bounding box has non-zero total weight, so that its weights sum to
1), with every pixel valid in the mask, the sum over the whole profile grid
produced by the Forward transform is the sum of all observed pixel values of
the shoebox. -/
theorem forward_conserves_counts {Beam Detector Goniometer Scan : Type}
    (spec : TransformSpec Beam Detector Goniometer Scan)
    (index : Nat → Nat → Option (Nat × Nat))
    (mapper : MapFramesForward) (mass : ℚ → ℚ → Int → Nat → ℚ) (phi zeta : ℚ)
    (bbox : Int6) (data : Versa3 ℚ) (mask : Versa3 Bool)
    (hplanes : mapper.grid_size_e3.toNat = spec.grid_size.1)
    (hcell : ∀ y x, y < bbox.ysize → x < bbox.xsize →
      ∃ e1 e2, index y x = some (e1, e2) ∧ e1 < spec.grid_size.1 ∧ e2 < spec.grid_size.1)
    (hangle : ∀ z, z < bbox.zsize →
      ((List.range mapper.grid_size_e3.toNat).map
        (mass phi zeta (bbox.z0 + (z : Int)))).sum ≠ 0)
    (hmask : ∀ z y x, z < bbox.zsize → y < bbox.ysize → x < bbox.xsize →
      mask.getB z y x = true) :
    (Forward.construct spec index mapper mass phi zeta bbox data mask).profile.sum =
      ∑ z ∈ Finset.range bbox.zsize, ∑ y ∈ Finset.range bbox.ysize,
        ∑ x ∈ Finset.range bbox.xsize, data.get z y x := by
  unfold Forward.construct Forward.profile
  simp only
  have hfold := foldl_sum (spec.grid_size.1 * spec.grid_size.1 * spec.grid_size.1)
    (Forward.frame spec.grid_size.1 index bbox data mask
      (mapper.call mass (bbox.z0, bbox.z1) phi zeta))
    (fun z => ∑ y ∈ Finset.range bbox.ysize, ∑ x ∈ Finset.range bbox.xsize, data.get z y x)
    bbox.zsize
    (fun g z hg hz =>
      frame_sum spec.grid_size.1 index bbox data mask _ g z (fun y x => hmask z y x hz) hcell
        (zfraction_row_sum mapper mass phi zeta bbox _ z hplanes hz (hangle z hz)) hg)
    (List.replicate (spec.grid_size.1 * spec.grid_size.1 * spec.grid_size.1) 0)
    (List.length_replicate _ _)
  rw [hfold.2]
  simp

/-- The profile grid of the sample reflection sums to `1 + 2 + 3 + 4`. -/
theorem sample_profile_sum :
    (Forward.construct sampleSpec sampleIndex sampleMapper sampleMass 0 1 sampleBox
      sampleShoebox.data sampleMask).profile.sum = 10 := by
  simp [Forward.construct, Forward.profile, Forward.frame, Forward.pixel, Forward.scatter,
    MapFramesForward.call, MapFramesForward.row, sampleSpec, sampleIndex, sampleMapper,
    sampleMass, sampleBox, sampleShoebox, sampleMask, TransformSpec.grid_size, Int6.xsize,
    Int6.ysize, Int6.zsize, Versa3.getB, Versa3.get, modifyAt, List.range_succ]
  norm_num

/-- Witness of C4: a shoebox of two frames of one row and two columns, mapped
into a grid of `3 × 3 × 3` cells. -/
theorem forward_conserves_counts_witness :
    (sampleMapper.grid_size_e3.toNat = sampleSpec.grid_size.1 ∧
      (∀ y x, y < sampleBox.ysize → x < sampleBox.xsize →
        ∃ e1 e2, sampleIndex y x = some (e1, e2) ∧ e1 < sampleSpec.grid_size.1 ∧
          e2 < sampleSpec.grid_size.1) ∧
      (∀ z, z < sampleBox.zsize →
        ((List.range sampleMapper.grid_size_e3.toNat).map
          (sampleMass 0 1 (sampleBox.z0 + (z : Int)))).sum ≠ 0) ∧
      (∀ z y x, z < sampleBox.zsize → y < sampleBox.ysize → x < sampleBox.xsize →
        sampleMask.getB z y x = true)) ∧
    (Forward.construct sampleSpec sampleIndex sampleMapper sampleMass 0 1 sampleBox
        sampleShoebox.data sampleMask).profile.sum =
      ∑ z ∈ Finset.range sampleBox.zsize, ∑ y ∈ Finset.range sampleBox.ysize,
        ∑ x ∈ Finset.range sampleBox.xsize, sampleShoebox.data.get z y x :=
  have hplanes : sampleMapper.grid_size_e3.toNat = sampleSpec.grid_size.1 := by decide
  have hcell : ∀ y x, y < sampleBox.ysize → x < sampleBox.xsize →
      ∃ e1 e2, sampleIndex y x = some (e1, e2) ∧ e1 < sampleSpec.grid_size.1 ∧
        e2 < sampleSpec.grid_size.1 := by
    intro y x hy hx
    have hy' : y < 1 := hy
    have hx' : x < 2 := hx
    refine ⟨y + 1, x, rfl, ?_, ?_⟩
    · show y + 1 < 3
      omega
    · show x < 3
      omega
  have hangle : ∀ z, z < sampleBox.zsize →
      ((List.range sampleMapper.grid_size_e3.toNat).map
        (sampleMass 0 1 (sampleBox.z0 + (z : Int)))).sum ≠ 0 := by
    intro z _
    have h0 : (0 : Int) ≤ sampleBox.z0 + (z : Int) := by
      show (0 : Int) ≤ 0 + (z : Int)
      omega
    have h3 : sampleMapper.grid_size_e3.toNat = 3 := by decide
    rw [h3]
    simp only [sampleMass, if_pos h0, List.range_succ, List.range_zero, List.nil_append,
      List.cons_append, List.map_cons, List.map_nil, List.sum_cons, List.sum_nil]
    norm_num
  have hmask : ∀ z y x, z < sampleBox.zsize → y < sampleBox.ysize → x < sampleBox.xsize →
      sampleMask.getB z y x = true := by
    intro z y x hz hy hx
    have hz' : z < 2 := hz
    have hy' : y < 1 := hy
    have hx' : x < 2 := hx
    interval_cases z <;> interval_cases y <;> interval_cases x <;> rfl
  ⟨⟨hplanes, hcell, hangle, hmask⟩,
    forward_conserves_counts sampleSpec sampleIndex sampleMapper sampleMass 0 1 sampleBox
      sampleShoebox.data sampleMask hplanes hcell hangle hmask⟩

/-! ## Evaluation on the sample inputs -/

/-- The constructor run on the sample shoebox: the two frames `1 2` and `3 4` sum
to `4 6`, the masks `1 4` and `2 0` combine to `3 4`. -/
theorem sample_flatten_value :
    (Flattened2DProfileFitting.construct 8 8 [sampleShoebox]).flattened =
      { flattened_data := [⟨1, 2, [4, 6]⟩],
        flattened_bgrd := [⟨1, 2, [1 / 2, 1 / 3]⟩],
        flattened_mask := [⟨1, 2, [3, 4]⟩] } := by
  simp [Flattened2DProfileFitting.construct, flatten, flattenOne, flattenZ, flattenY,
    flattenX, flattenStep, modifyAt, Versa2.update, Versa2.filled, Versa3.get,
    sampleShoebox, List.range_succ]
  norm_num
  decide

end dials
